import Mathlib

/-!
Shallow embedding of the SAM intent-resolution and reporting engine
(`src/immigration_main_agent.py`, `src/services/data_service.py`,
`src/tools.py`, `src/immigration_agent.py`, `src/agent.py`) together with
proofs about the fixed claims of the specification.

Strings are modelled as Lean `String` / `List Char`; Python floats as `ℚ`
(only arithmetic comparisons, sums and divisions occur, so rationals are an
exact model of the values that arise); Python dicts built by the code as
association lists from `String` to a Python-value type; fallible calls to
the remote record store or to external collaborators as `Except String`
values supplied by an environment record, with `try/except` translated to
an explicit match on the `Except`.
-/

namespace SAM

/-! ## Python string primitives -/

/-- Python `\s` (ASCII range, which is all that occurs in the data). -/
def isPyWS (c : Char) : Bool :=
  c == ' ' || c == '\t' || c == '\n' || c == '\r' || c == '\x0b' || c == '\x0c'

/-- `[a-z]`. -/
def isLowerAZ (c : Char) : Bool := 'a' ≤ c && c ≤ 'z'

/-- `[a-z0-9]` (the lookbehind class of `_extract_wage`). -/
def isLowerAlnum (c : Char) : Bool := isLowerAZ c || c.isDigit

/-- Python `\w` = `[A-Za-z0-9_]` (ASCII). -/
def isWordChar (c : Char) : Bool :=
  isLowerAZ c || ('A' ≤ c && c ≤ 'Z') || c.isDigit || c == '_'

/-- Python `str.lower()` (ASCII case mapping; the inputs that occur are
ASCII text plus emoji, which `lower` leaves unchanged). -/
def lowerStr (s : String) : String := ⟨s.data.map Char.toLower⟩

/-- Contiguous-substring test: Python `needle in hay`. -/
def isSubstrL (p : List Char) : List Char → Bool
  | [] => p.isEmpty
  | c :: rest => p.isPrefixOf (c :: rest) || isSubstrL p rest

/-- Python `needle in hay` on strings. -/
def pyIn (needle hay : String) : Bool := isSubstrL needle.data hay.data

/-- Python `str.strip()` on a char list. -/
def stripL (l : List Char) : List Char :=
  ((l.dropWhile isPyWS).reverse.dropWhile isPyWS).reverse

/-- Python `str.strip()`. -/
def pyStrip (s : String) : String := ⟨stripL s.data⟩

/-- One step of Python `str.title()`: uppercase an alphabetic character that
does not follow an alphabetic character, lowercase the others. -/
def pyTitleGo : List Char → Bool → List Char
  | [], _ => []
  | c :: rest, prevAlpha =>
    (if c.isAlpha then (if prevAlpha then c.toLower else c.toUpper) else c)
      :: pyTitleGo rest c.isAlpha

/-- Python `str.title()`. -/
def pyTitle (s : String) : String := ⟨pyTitleGo s.data false⟩

/-- Collapse every run of whitespace to a single space:
`re.sub(r"\s+", " ", t)`.  The boolean records whether the previous
character was whitespace. -/
def collapseWSGo : List Char → Bool → List Char
  | [], _ => []
  | c :: rest, prevWs =>
    if isPyWS c then
      (if prevWs then collapseWSGo rest true else ' ' :: collapseWSGo rest true)
    else c :: collapseWSGo rest false

def collapseWS (l : List Char) : List Char := collapseWSGo l false

/-- The Unicode-punctuation folding of `_normalize_text`: dashes U+2010–U+2015
become `-`, curly quotes become straight quotes. -/
def normPunct (c : Char) : Char :=
  if 0x2010 ≤ c.val && c.val ≤ 0x2015 then '-'
  else if c.val == 0x2018 || c.val == 0x2019 then Char.ofNat 39
  else if c.val == 0x201c || c.val == 0x201d then '"'
  else c

/-- `EnhancedImmigrationAgent._normalize_text`: lowercase, fold Unicode
dashes/quotes, collapse whitespace, strip. -/
def normalize_text (s : String) : String :=
  pyStrip ⟨collapseWS ((s.data.map Char.toLower).map normPunct)⟩

/-! ## The wage-threshold extractor (`_extract_wage`)

The two patterns
`(?<![a-z0-9])(?:less than|under|below)\s*\$?(\d[\d,]*)(k|\$)?(?![a-z])` and
`(?<![a-z0-9])(?:more than|above|over|at least)\s*\$?(\d[\d,]*)(k|\$)?(?![a-z])`
are embedded with Python `re.search` semantics: leftmost match position
wins, alternatives are tried in written order, `[\d,]*` is greedy but backs
off against the `(k|\$)?(?![a-z])` suffix. -/

/-- `(?![a-z])`: succeeds at end of input or before a non-letter. -/
def lookaheadOk : List Char → Bool
  | [] => true
  | c :: _ => !isLowerAZ c

/-- The `(k|\$)?(?![a-z])` suffix of the wage patterns, with the regex
backtracking order `k`, then `$`, then the empty option.  Returns whether
group 2 matched `k`. -/
def wageSuffix (rest : List Char) : Option Bool :=
  match rest with
  | 'k' :: r => if lookaheadOk r then some true
                else if lookaheadOk rest then some false else none
  | '$' :: r => if lookaheadOk r then some false
                else if lookaheadOk rest then some false else none
  | _ => if lookaheadOk rest then some false else none

/-- Back off the greedy `[\d,]*` run until the suffix matches.  `gRev` is
the part of group 1 consumed so far, reversed; its last element (the
mandatory `\d`) is never given back. -/
def wageShrink : List Char → List Char → Option (List Char × Bool)
  | gRev, rest =>
    match wageSuffix rest with
    | some k => some (gRev.reverse, k)
    | none =>
      match gRev with
      | [] => none
      | [_] => none
      | x :: xs => wageShrink xs (x :: rest)

/-- Digits of group 1 with thousands separators removed, as a number
(`float(num.replace(',', ''))`).  The parsed amounts are natural numbers
and the only arithmetic on them is an exact multiplication by 1000, so the
value is computed in `ℕ` and cast to `ℚ` at the interface. -/
def digitsVal (g : List Char) : ℕ :=
  (g.filter (fun c => c.isDigit)).foldl (fun a c => a * 10 + (c.toNat - 48)) 0

/-- Match `\s*\$?(\d[\d,]*)(k|\$)?(?![a-z])` at the head of `cs`; returns
the numeric value of group 1 and whether group 2 was `k`. -/
def wageAfterKeyword (cs : List Char) : Option (ℕ × Bool) :=
  let cs1 := cs.dropWhile isPyWS
  let cs2 := match cs1 with
    | '$' :: r => r
    | _ => cs1
  match cs2 with
  | c :: rest =>
    if c.isDigit then
      let run := rest.takeWhile (fun x => x.isDigit || x == ',')
      let after := rest.dropWhile (fun x => x.isDigit || x == ',')
      match wageShrink (c :: run).reverse after with
      | some (g, k) => some (digitsVal g, k)
      | none => none
    else none
  | [] => none

/-- Try the keyword alternatives in order at the current position; if a
keyword prefix matches but the numeric tail fails, the next alternative is
tried (regex alternation backtracking). -/
def wageTryAlts : List String → List Char → Option (ℕ × Bool)
  | [], _ => none
  | kw :: kws, cs =>
    if kw.data.isPrefixOf cs then
      match wageAfterKeyword (cs.drop kw.length) with
      | some r => some r
      | none => wageTryAlts kws cs
    else wageTryAlts kws cs

/-- Scan for the leftmost position where the whole pattern matches; `prev`
is the character before the current position, for the `(?<![a-z0-9])`
lookbehind. -/
def wageSearch (alts : List String) : Option Char → List Char → Option (ℕ × Bool)
  | prev, cs =>
    let here :=
      if (match prev with
          | none => true
          | some c => !isLowerAlnum c) then wageTryAlts alts cs else none
    match here with
    | some r => some r
    | none =>
      match cs with
      | [] => none
      | c :: rest => wageSearch alts (some c) rest

/-- Thousands interpretation: multiply by 1000 when group 2 was `k` or the
value is below 1000 (exact on these integer amounts). -/
def kAdjust (v : ℕ) (hasK : Bool) : ℕ :=
  if hasK || v < 1000 then v * 1000 else v

inductive WageOp | gte | lte
deriving DecidableEq, Repr

/-- `EnhancedImmigrationAgent._extract_wage`.  The explicit less-than
pattern is tried first, then the explicit more-than pattern; the
generic bare-amount pattern of the docstring is unreachable in the source
(it is located after the `return None` of `_extract_visa`), so a text with
no directional keyword yields no match. -/
def extract_wage (s : String) : Option (ℚ × WageOp) :=
  match wageSearch ["less than", "under", "below"] none s.data with
  | some (v, k) => some ((kAdjust v k : ℕ), WageOp.lte)
  | none =>
    match wageSearch ["more than", "above", "over", "at least"] none s.data with
    | some (v, k) => some ((kAdjust v k : ℕ), WageOp.gte)
    | none => none

/-! ## The visa-class extractor (`_extract_visa`) -/

inductive Visa | h1b | perm | e3
deriving DecidableEq, Repr

/-- `h\s*-?\s*1\s*-?\s*b` at the head of the list.  The whitespace runs,
the optional dashes and the literal characters use disjoint character
classes, so a greedy left-to-right match is exact. -/
def h1bAt : List Char → Bool
  | 'h' :: r =>
    let r1 := r.dropWhile isPyWS
    let r2 := match r1 with
      | '-' :: t => t
      | _ => r1
    let r3 := r2.dropWhile isPyWS
    (match r3 with
     | '1' :: r4 =>
       let r5 := r4.dropWhile isPyWS
       let r6 := match r5 with
         | '-' :: t => t
         | _ => r5
       let r7 := r6.dropWhile isPyWS
       (match r7 with
        | 'b' :: _ => true
        | _ => false)
     | _ => false)
  | _ => false

/-- `re.search` of the H-1B spacing pattern. -/
def h1bMatch : List Char → Bool
  | [] => false
  | c :: rest => h1bAt (c :: rest) || h1bMatch rest

/-- `e\s*-?\s*3` at the head of the list. -/
def e3At : List Char → Bool
  | 'e' :: r =>
    let r1 := r.dropWhile isPyWS
    let r2 := match r1 with
      | '-' :: t => t
      | _ => r1
    let r3 := r2.dropWhile isPyWS
    (match r3 with
     | '3' :: _ => true
     | _ => false)
  | _ => false

def e3Match : List Char → Bool
  | [] => false
  | c :: rest => e3At (c :: rest) || e3Match rest

/-- `EnhancedImmigrationAgent._extract_visa`.  The patterns are written in
lowercase with no `re.I` flag, and `process_query` passes the raw,
unnormalized query, so matching is case-sensitive. -/
def extract_visa (q : String) : Option Visa :=
  if h1bMatch q.data then some Visa.h1b
  else if pyIn "perm" q || pyIn "green card" q || pyIn "greencard" q then some Visa.perm
  else if e3Match q.data || pyIn "e3" q then some Visa.e3
  else none

/-! ## Python values and dicts

The records the adapter builds are Python dict literals with fixed key
sets; they are modelled as association lists from key to a Python value.
Wages are modelled as `ℚ` (the code only compares, adds and divides them,
so rationals are exact for every value that occurs). -/

inductive PyVal
  | vNone
  | vStr (s : String)
  | vNum (q : ℚ)
deriving DecidableEq, Repr

abbrev PyDict := List (String × PyVal)

/-- Python `d[k]` / `d.get(k)` lookup (first binding wins, as in a dict
with distinct literal keys). -/
def dictGet? (d : PyDict) (k : String) : Option PyVal :=
  match d with
  | [] => none
  | (k', v) :: rest => if k' == k then some v else dictGet? rest k

/-- Python `d.get(k, default)`. -/
def dictGetD (d : PyDict) (k : String) (dflt : PyVal) : PyVal :=
  (dictGet? d k).getD dflt

/-- Whether the dict has the key at all. -/
def hasKey (d : PyDict) (k : String) : Bool := (dictGet? d k).isSome

/-- The sort key `lambda x: x['wage']` (every dict this is applied to was
constructed with a numeric `wage` entry). -/
def wageVal (d : PyDict) : ℚ :=
  match dictGet? d "wage" with
  | some (PyVal.vNum q) => q
  | _ => 0

def optStrVal : Option String → PyVal
  | some s => PyVal.vStr s
  | none => PyVal.vNone

def optNumVal : Option ℚ → PyVal
  | some q => PyVal.vNum q
  | none => PyVal.vNone

/-! ## Stable descending sort by wage

Python `list.sort(key=lambda x: x['wage'], reverse=True)` is a stable sort
placing larger wages first; insertion sort inserting each earlier element
before the first strictly-smaller later element is the same function. -/

def insertDesc (x : PyDict) : List PyDict → List PyDict
  | [] => [x]
  | y :: ys => if wageVal y ≤ wageVal x then x :: y :: ys else y :: insertDesc x ys

def sortByWageDesc : List PyDict → List PyDict
  | [] => []
  | x :: xs => insertDesc x (sortByWageDesc xs)

/-! ## Record store rows

A row of the remote `lca_filings` select, with its joined
`lca_worksites` sub-records.  The selected filing columns are present as
strings (the code indexes them directly); `visa_class` and
`worksite_state` are fetched with `.get`, so they may be absent; the city
column is indexed and lowercased directly by the code, so it is a string;
`prevailing_wage` may be null. -/
structure LcaWorksite where
  worksite_city : String
  worksite_state : Option String
  prevailing_wage : Option ℚ
deriving DecidableEq, Repr

structure LcaRow where
  case_number : String
  employer_name : String
  job_title : String
  visa_class : Option String
  lca_worksites : List LcaWorksite
deriving DecidableEq, Repr

/-- A row of the remote `perm_disclosure` select (`select('*')`): an
arbitrary dict, accessed only through `.get` with defaults. -/
abbrev PermRow := PyDict

/-! ## DataService: LCA accessors (`services/data_service.py`)

Each accessor is modelled as a pure function from the rows the remote
returned to the list it hands back; the remote call itself (with its
limits and server-side filters) lives in the environment record further
down. -/

/-- The flattened record literal shared by `get_sample_joined_data`,
`get_filings_by_city` and `get_high_wage_jobs`. -/
def mkJoinedRec (rec : LcaRow) (w : LcaWorksite) : PyDict :=
  [ ("case_number", PyVal.vStr rec.case_number),
    ("company", PyVal.vStr rec.employer_name),
    ("job_title", PyVal.vStr rec.job_title),
    ("city", PyVal.vStr w.worksite_city),
    ("state", optStrVal w.worksite_state),
    ("wage", PyVal.vNum (w.prevailing_wage.getD 0)),
    ("visa_class", PyVal.vStr (rec.visa_class.getD "H-1B")) ]

/-- The no-worksite fallback record of `get_sample_joined_data`. -/
def mkNoWorksiteRec (rec : LcaRow) : PyDict :=
  [ ("case_number", PyVal.vStr rec.case_number),
    ("company", PyVal.vStr rec.employer_name),
    ("job_title", PyVal.vStr rec.job_title),
    ("city", PyVal.vNone),
    ("state", PyVal.vNone),
    ("wage", PyVal.vNum 0),
    ("visa_class", PyVal.vStr (rec.visa_class.getD "H-1B")) ]

/-- `DataService.get_sample_joined_data`, flattening step. -/
def get_sample_joined_data_rows (rows : List LcaRow) : List PyDict :=
  (rows.map (fun rec =>
    if rec.lca_worksites.isEmpty then [mkNoWorksiteRec rec]
    else rec.lca_worksites.map (mkJoinedRec rec))).flatten

/-- `DataService.get_filings_by_city`, flattening step with the local
case-insensitive substring double-check on the city. -/
def get_filings_by_city_rows (city : String) (rows : List LcaRow) : List PyDict :=
  (rows.map (fun rec =>
    (rec.lca_worksites.filter
        (fun w => pyIn (lowerStr city) (lowerStr w.worksite_city))).map
      (mkJoinedRec rec))).flatten

/-- `DataService.get_high_wage_jobs`, local step: re-validate each wage
against the threshold, sort by wage descending, truncate to `limit`. -/
def get_high_wage_jobs_rows (min_wage : ℚ) (limit : ℕ) (rows : List LcaRow) : List PyDict :=
  let flattened := (rows.map (fun rec =>
    rec.lca_worksites.filterMap (fun w =>
      let wage_value := w.prevailing_wage.getD 0
      if min_wage ≤ wage_value then some (mkJoinedRec rec w) else none))).flatten
  (sortByWageDesc flattened).take limit

/-- The raw-shaped record literal of `get_jobs_by_company` and
`get_jobs_by_title` (note: keys `employer_name`, `worksite_city`,
`prevailing_wage`, and no `company`/`city`/`state`/`wage`/`visa_class`). -/
def mkRawRec (rec : LcaRow) (w : LcaWorksite) : PyDict :=
  [ ("case_number", PyVal.vStr rec.case_number),
    ("employer_name", PyVal.vStr rec.employer_name),
    ("job_title", PyVal.vStr rec.job_title),
    ("worksite_city", PyVal.vStr w.worksite_city),
    ("prevailing_wage", optNumVal w.prevailing_wage) ]

/-- `DataService.get_jobs_by_company`, flattening step (the employer
filter runs remotely; no local filtering). -/
def get_jobs_by_company_rows (rows : List LcaRow) : List PyDict :=
  (rows.map (fun rec => rec.lca_worksites.map (mkRawRec rec))).flatten

/-- `DataService.get_jobs_by_title`, flattening step (same record literal
as `get_jobs_by_company`). -/
def get_jobs_by_title_rows (rows : List LcaRow) : List PyDict :=
  (rows.map (fun rec => rec.lca_worksites.map (mkRawRec rec))).flatten

/-! ## DataService: PERM accessors -/

/-- The wage expression
`float(record.get('wage_offer_to', 0)) if record.get('wage_offer_to') else 0.0`:
a missing or null or zero value yields `0`; otherwise the numeric value
(the store column is numeric). -/
def permWage (r : PermRow) : ℚ :=
  match dictGet? r "wage_offer_to" with
  | some (PyVal.vNum q) => q
  | _ => 0

/-- The standardized-record literal repeated in every PERM accessor:
missing text fields default to the literal string `N/A` (`decision_date`
defaults to `None`). -/
def standardize_perm_record (r : PermRow) : PyDict :=
  [ ("case_number", dictGetD r "case_number" (PyVal.vStr "N/A")),
    ("company", dictGetD r "employer_name" (PyVal.vStr "N/A")),
    ("job_title", dictGetD r "job_title" (PyVal.vStr "N/A")),
    ("city", dictGetD r "worksite_city" (PyVal.vStr "N/A")),
    ("state", dictGetD r "worksite_state" (PyVal.vStr "N/A")),
    ("wage", PyVal.vNum (permWage r)),
    ("visa_class", PyVal.vStr "PERM"),
    ("decision_date", dictGetD r "decision_date" PyVal.vNone),
    ("case_status", dictGetD r "case_status" (PyVal.vStr "N/A")),
    ("employer_country", dictGetD r "employer_country" (PyVal.vStr "N/A")),
    ("job_info_education", dictGetD r "job_info_education" (PyVal.vStr "N/A")) ]

/-- `DataService.get_sample_perm_data`, standardization step. -/
def get_sample_perm_data_rows (rows : List PermRow) : List PyDict :=
  rows.map standardize_perm_record

/-- `DataService.get_perm_by_city`, standardization step (the city filter
runs remotely; no local double-check on this path). -/
def get_perm_by_city_rows (rows : List PermRow) : List PyDict :=
  rows.map standardize_perm_record

/-- `DataService.get_perm_high_wage_jobs`, local step: re-validate the
wage, standardize, sort descending, truncate. -/
def get_perm_high_wage_jobs_rows (min_wage : ℚ) (limit : ℕ) (rows : List PermRow) : List PyDict :=
  let standardized := rows.filterMap (fun r =>
    if min_wage ≤ permWage r then some (standardize_perm_record r) else none)
  (sortByWageDesc standardized).take limit

/-- `DataService.get_perm_by_company`, standardization step. -/
def get_perm_by_company_rows (rows : List PermRow) : List PyDict :=
  rows.map standardize_perm_record

/-- `DataService.get_perm_by_title`, standardization step. -/
def get_perm_by_title_rows (rows : List PermRow) : List PyDict :=
  rows.map standardize_perm_record

/-- `DataService.get_all_high_wage_jobs`: fetch half the limit from each
dataset, concatenate, re-sort by wage descending, truncate to `limit`. -/
def get_all_high_wage_jobs_rows (min_wage : ℚ) (limit : ℕ)
    (lcaRows : List LcaRow) (permRows : List PermRow) : List PyDict :=
  let lca_jobs := get_high_wage_jobs_rows min_wage (limit / 2) lcaRows
  let perm_jobs := get_perm_high_wage_jobs_rows min_wage (limit / 2) permRows
  (sortByWageDesc (lca_jobs ++ perm_jobs)).take limit

/-! ## Number formatting

`f-string` `{x:,.0f}` and `{x:.1f}`: round half to even, decimal digits,
thousands separators for the former. -/

def roundHalfEven (q : ℚ) : ℤ :=
  let n := ⌊q⌋
  let r := q - (n : ℚ)
  if r < 1/2 then n
  else if (1 : ℚ)/2 < r then n + 1
  else if n % 2 = 0 then n else n + 1

/-- Insert a thousands separator after every three characters of a
reversed digit list. -/
def commaGroup3 : List Char → List Char
  | a :: b :: c :: d :: rest => a :: b :: c :: ',' :: commaGroup3 (d :: rest)
  | l => l

def commaFmtNat (n : ℕ) : String := ⟨(commaGroup3 (Nat.repr n).data.reverse).reverse⟩

/-- `f"{q:,.0f}"`. -/
def fmtComma0 (q : ℚ) : String :=
  let r := roundHalfEven q
  (if r < 0 then "-" else "") ++ commaFmtNat r.natAbs

/-- `f"{q:.1f}"`. -/
def fmtDot1 (q : ℚ) : String :=
  let r := roundHalfEven (q * 10)
  (if r < 0 then "-" else "") ++ Nat.repr (r.natAbs / 10) ++ "." ++ Nat.repr (r.natAbs % 10)

/-! ## The result formatter (`tools.format_job_results`) -/

def sepLine60 : String := ⟨List.replicate 60 '='⟩

/-- `format_job_results._nz`: `None` and empty-after-collapse strings
become `Not specified`; other strings are whitespace-collapsed and
trimmed.  (A numeric value would be `str`-ed by the source; the formatter
is only ever handed strings or `None` in these positions.) -/
def nz : PyVal → String
  | PyVal.vNone => "Not specified"
  | PyVal.vStr s =>
    let v := pyStrip ⟨collapseWS s.data⟩
    if v.isEmpty then "Not specified" else v
  | PyVal.vNum q => fmtComma0 q

/-- The salary column: a positive numeric wage renders as a
thousands-separated dollar amount, anything else as `Not specified`. -/
def salaryStr (j : PyDict) : String :=
  match dictGet? j "wage" with
  | some (PyVal.vNum q) => if 0 < q then "$" ++ fmtComma0 q else "Not specified"
  | _ => "Not specified"

/-- Location composition from the already-defaulted city/state strings. -/
def locStr (city state : String) : String :=
  if city == "Not specified" && state != "Not specified" then state
  else if city != "Not specified" && state == "Not specified" then city
  else if city == "Not specified" && state == "Not specified" then "Not specified"
  else city ++ ", " ++ state

/-- The seven output lines of one numbered entry. -/
def entryLines (i : ℕ) (job : PyDict) : List String :=
  let company := nz (dictGetD job "company" PyVal.vNone)
  let title := nz (dictGetD job "job_title" PyVal.vNone)
  let city := nz (dictGetD job "city" PyVal.vNone)
  let state := nz (dictGetD job "state" PyVal.vNone)
  let visa := nz (dictGetD job "visa_class" PyVal.vNone)
  [ Nat.repr i ++ (". 🏢 " ++ company),
    "",
    "   📋 Position: " ++ title,
    "   📍 Location: " ++ locStr city state,
    "   💰 Salary: " ++ salaryStr job,
    "   🛂 Visa: " ++ visa,
    "" ]

/-- The `enumerate(results[:10], 1)` loop body. -/
def fjrEntries : ℕ → List PyDict → List String
  | _, [] => []
  | i, j :: js => entryLines i j ++ fjrEntries (i + 1) js

/-- The output lines of `format_job_results` for a non-empty result
list. -/
def format_job_results_lines (results : List PyDict) (query_type : String) : List String :=
  [ "📊 **" ++ (pyTitle query_type ++ ("** (" ++ (Nat.repr results.length ++ " found)"))),
    sepLine60,
    "" ]
  ++ fjrEntries 1 (results.take 10)
  ++ (if 10 < results.length then
        ["... and " ++ (Nat.repr (results.length - 10) ++ " more results")]
      else [])

def rstripStr (s : String) : String := ⟨(s.data.reverse.dropWhile isPyWS).reverse⟩

/-- `tools.format_job_results`. -/
def format_job_results (results : List PyDict) (query_type : String) : String :=
  if results.isEmpty then
    "📊 **" ++ pyTitle query_type ++ "** (0 found)\n" ++ sepLine60
      ++ "\n\nNo results found matching your criteria."
  else
    rstripStr (String.intercalate "\n" (format_job_results_lines results query_type))

/-! ## The visa-filter branch of `process_query` -/

def visaName : Visa → String
  | Visa.h1b => "H-1B"
  | Visa.perm => "PERM"
  | Visa.e3 => "E-3"

/-- `(j.get('visa_class') or '')` for the record dicts (always a string,
`None` or absent here). -/
def visaClassStr (j : PyDict) : String :=
  match dictGet? j "visa_class" with
  | some (PyVal.vStr s) => s
  | _ => ""

/-- The client-side filter of the visa branch: skip empty visa classes,
keep the ones whose lowercased class contains the marker substring. -/
def visaFilter (visa : Visa) (sample : List PyDict) : List PyDict :=
  sample.filter (fun j =>
    let v := pyStrip (visaClassStr j)
    if v.isEmpty then false
    else
      match visa with
      | Visa.h1b => pyIn "h-1b" (lowerStr v)
      | Visa.perm => pyIn "perm" (lowerStr v) || pyIn "green card" (lowerStr v)
      | Visa.e3 => pyIn "e-3" (lowerStr v) || pyIn "e3" (lowerStr v))

/-! ## Immigration-guidance classification (`immigration_agent.py`) -/

inductive VisaStage | optStage | h1bStage | greenCardStage | fullPathway | general
deriving DecidableEq, Repr

/-- `ImmigrationAgent._detect_visa_stage` (input already lowercased). -/
def detect_visa_stage (q : String) : VisaStage :=
  if ["opt", "f-1", "student", "graduate"].any (fun t => pyIn t q) then VisaStage.optStage
  else if ["h-1b", "h1b", "lottery", "sponsor"].any (fun t => pyIn t q) then VisaStage.h1bStage
  else if ["green card", "perm", "permanent", "eb-2", "eb-3"].any (fun t => pyIn t q) then VisaStage.greenCardStage
  else if ["pathway", "journey", "timeline", "process"].any (fun t => pyIn t q) then VisaStage.fullPathway
  else VisaStage.general

/-- `ImmigrationAgent._extract_location`: first gazetteer city contained
in the query, title-cased. -/
def extract_location (q : String) : Option String :=
  (["san francisco", "new york", "seattle", "chicago", "boston", "austin",
    "los angeles"].find? (fun c => pyIn c q)).map pyTitle

/-- `ImmigrationAgent._extract_industry`. -/
def extract_industry (q : String) : Option String :=
  if ["software", "engineer", "developer", "tech", "google", "microsoft",
      "amazon"].any (fun k => pyIn k q) then some "tech"
  else if ["finance", "banking", "analyst", "goldman", "jpmorgan"].any (fun k => pyIn k q) then some "finance"
  else if ["consulting", "consultant", "mckinsey", "bain", "bcg"].any (fun k => pyIn k q) then some "consulting"
  else if ["healthcare", "medical", "pharma", "biotech"].any (fun k => pyIn k q) then some "healthcare"
  else none

def detect_salary_concern (q : String) : Bool :=
  ["salary", "wage", "pay", "money", "prevailing"].any (fun t => pyIn t q)

def detect_timeline_concern (q : String) : Bool :=
  ["when", "timeline", "deadline", "how long", "time"].any (fun t => pyIn t q)

/-- `ImmigrationAgent._extract_company`: first roster company contained in
the query, title-cased. -/
def extract_company (q : String) : Option String :=
  (["google", "microsoft", "amazon", "apple", "meta", "netflix",
    "tesla"].find? (fun c => pyIn c q)).map pyTitle

structure QueryContext where
  visa_stage : VisaStage
  location_focus : Option String
  industry_focus : Option String
  salary_concern : Bool
  timeline_concern : Bool
  company_specific : Option String
deriving DecidableEq, Repr

/-- `ImmigrationAgent.analyze_immigration_query`. -/
def analyze_immigration_query (query : String) : QueryContext :=
  let q := lowerStr query
  { visa_stage := detect_visa_stage q
    location_focus := extract_location q
    industry_focus := extract_industry q
    salary_concern := detect_salary_concern q
    timeline_concern := detect_timeline_concern q
    company_specific := extract_company q }

/-- `ImmigrationAgent._get_context_header`. -/
def get_context_header (ctx : QueryContext) : String :=
  match ctx.visa_stage with
  | VisaStage.optStage => "🎓 **OPT Stage Guidance** - Planning your post-graduation work authorization"
  | VisaStage.h1bStage => "🏢 **H-1B Stage Guidance** - Finding sponsoring employers"
  | VisaStage.greenCardStage => "🟢 **Green Card Stage Guidance** - Permanent residency pathway"
  | VisaStage.fullPathway => "🛤️ **Complete Immigration Pathway** - F-1 to Green Card journey"
  | VisaStage.general => "📋 **Immigration Data Analysis**"

/-- `ImmigrationAgent._get_immigration_advice` (the stage-keyed advice
literals; the `general` stage yields the empty string). -/
def get_immigration_advice (ctx : QueryContext) : String :=
  match ctx.visa_stage with
  | VisaStage.optStage =>
    "\n**💡 OPT Stage Tips:**\n• Focus on companies with high H-1B approval rates\n• STEM students get 24-month extension - use it wisely\n• Start H-1B prep early (applications due in March)\n• Consider companies that also file PERM applications\n            "
  | VisaStage.h1bStage =>
    "\n**💡 H-1B Stage Tips:**\n• H-1B lottery odds vary by company size and filing history\n• Look for companies that file multiple applications\n• Consider consulting firms for higher lottery chances\n• Backup plan: Look into L-1, O-1, or other visa options\n            "
  | VisaStage.greenCardStage =>
    "\n**💡 Green Card Stage Tips:**\n• PERM process takes 1-3 years depending on country of birth\n• EB-2 vs EB-3 categories have different wait times\n• Some companies prefer internal transfers for PERM\n• Consider EB-1 if you qualify (extraordinary ability)\n            "
  | VisaStage.fullPathway =>
    "\n**💡 Complete Pathway Strategy:**\n1. **OPT (1-3 years)**: Build skills, network, find H-1B sponsors\n2. **H-1B (up to 6 years)**: Prove value, get PERM sponsorship\n3. **PERM Process (1-3 years)**: Maintain status, prepare for delays\n4. **Green Card**: Adjust status or consular processing\n\n**Key Success Factors:**\n• Choose employers with proven immigration support\n• Maintain legal status throughout\n• Build strong case for permanent residency\n• Have backup plans at each stage\n            "
  | VisaStage.general => ""

/-- `EnhancedImmigrationAgent._is_immigration_query`: keyword substring
test on the lowercased query. -/
def is_immigration_query (query : String) : Bool :=
  ["opt", "f-1", "student", "visa", "sponsor", "green card", "perm",
   "h-1b", "h1b", "immigration", "pathway", "timeline", "process",
   "international student", "work authorization", "permanent residency"].any
    (fun k => pyIn k (lowerStr query))

/-! ## Company profile (`ImmigrationAgent.get_company_immigration_profile`) -/

/-- `_avg_wage`: mean over the strictly-positive numeric wages, `None`
when there are none. -/
def avg_wage (jobs : List PyDict) : Option ℚ :=
  let wages := jobs.filterMap (fun j =>
    match dictGet? j "wage" with
    | some (PyVal.vNum q) => if 0 < q then some q else none
    | _ => none)
  if wages.isEmpty then none else some (wages.sum / wages.length)

/-- `_fmt_money`. -/
def fmt_money : Option ℚ → String
  | some v => if 0 < v then "$" ++ fmtComma0 v else "Not specified"
  | none => "Not specified"

/-- `_rating`. -/
def rating (label_count good_thresh great_thresh : ℕ) : String :=
  if great_thresh ≤ label_count then "🟢 Excellent"
  else if good_thresh ≤ label_count then "🟡 Good"
  else if 0 < label_count then "🟠 Limited"
  else "🔴 None"

/-- `ImmigrationAgent._get_company_recommendation`. -/
def get_company_recommendation (h1b_count perm_count : ℕ) : String :=
  if 21 ≤ h1b_count ∧ 11 ≤ perm_count then
    "✅ Strong sponsor – Consistent H-1B + PERM history"
  else if 11 ≤ h1b_count ∧ 6 ≤ perm_count then
    "✅ Good option – Solid H-1B and active green card pathway"
  else if 6 ≤ h1b_count ∧ 1 ≤ perm_count then
    "⚠️ Mixed – H-1B present, limited green card activity"
  else if 1 ≤ h1b_count then
    "⚠️ Weak – H-1B activity but little/no green card history"
  else
    "❌ Not recommended – No visible immigration sponsorship"

/-- The lines of the profile template (the triple-quoted f-string,
including its leading blank line and trailing indentation, both removed by
the final `strip`). -/
def company_profile_lines (company_name : String)
    (lca_jobs perm_jobs : List PyDict) : List String :=
  let total_h1b := lca_jobs.length
  let total_perm := perm_jobs.length
  let avg_h1b_wage := avg_wage lca_jobs
  let avg_perm_wage := avg_wage perm_jobs
  [ "",
    "**🏢 Immigration Profile: " ++ pyTitle company_name ++ "**",
    "",
    "**📊 H-1B Sponsorship:**",
    "• Total H-1B filings: " ++ (if 0 < total_h1b then Nat.repr total_h1b else "Not specified"),
    "• Average H-1B wage: " ++ fmt_money avg_h1b_wage,
    "• H-1B sponsor rating: " ++ rating total_h1b 6 21,
    "",
    "**📊 Green Card (PERM) Sponsorship:**",
    "• Total PERM filings: " ++ (if 0 < total_perm then Nat.repr total_perm else "Not specified"),
    "• Average PERM wage: " ++ fmt_money avg_perm_wage,
    "• PERM sponsor rating: " ++ rating total_perm 3 11,
    "",
    "**📊 Immigration Friendliness Score:**",
    "• H-1B → PERM conversion rate: "
      ++ (if 0 < total_h1b then fmtDot1 ((total_perm : ℚ) / (total_h1b : ℚ) * 100) ++ "%"
          else "Not specified"),
    "• Overall rating: "
      ++ (if 10 < total_perm ∧ 20 < total_h1b then "🟢 Excellent"
          else if 2 < total_perm ∨ 10 < total_h1b then "🟡 Good"
          else "🔴 Limited"),
    "",
    "**💡 Recommendation:**",
    get_company_recommendation total_h1b total_perm,
    "            " ]

/-- `get_company_immigration_profile`, given the two fetched record
lists. -/
def get_company_immigration_profile (company_name : String)
    (lca_jobs perm_jobs : List PyDict) : String :=
  pyStrip (String.intercalate "\n" (company_profile_lines company_name lca_jobs perm_jobs))

/-! ## FAQ intent extraction (`_extract_faq_intent`) -/

/-- The dash class `[-‐-―]` of the FAQ H-1B pattern. -/
def faqDash (c : Char) : Bool := c == '-' || (0x2010 ≤ c.val && c.val ≤ 0x2015)

/-- `h[-‐-―]?\s?1b\b` anchored at the head of the list (the
leading `\b` is checked by the caller). -/
def h1bWordAt : List Char → Bool
  | 'h' :: r =>
    let r1 := match r with
      | c :: t => if faqDash c then t else c :: t
      | [] => []
    let r2 := match r1 with
      | c :: t => if isPyWS c then t else c :: t
      | [] => []
    (match r2 with
     | '1' :: 'b' :: rest =>
       (match rest with
        | [] => true
        | c :: _ => !isWordChar c)
     | _ => false)
  | _ => false

/-- `re.search(r"\bh[-‐-―]?\s?1b\b", q)` as a boolean. -/
def h1bWordSearch : Option Char → List Char → Bool
  | prev, cs =>
    ((match prev with
      | none => true
      | some c => !isWordChar c) && h1bWordAt cs)
    || (match cs with
        | [] => false
        | c :: rest => h1bWordSearch (some c) rest)

def h1bWord (s : String) : Bool := h1bWordSearch none s.data

/-- The character class `[A-Za-z0-9&.,'()\-\s]` of the university/company
capture groups. -/
def faqClassChar (c : Char) : Bool :=
  c.isAlpha || c.isDigit || c == '&' || c == '.' || c == ',' ||
  c == Char.ofNat 39 || c == '(' || c == ')' || c == '-' || isPyWS c

/-- Case-insensitive literal prefix (`re.I`); `kw` is given lowercased. -/
def ciPrefix : List Char → List Char → Option (List Char)
  | [], rest => some rest
  | _ :: _, [] => none
  | k :: kt, c :: ct => if c.toLower == k then ciPrefix kt ct else none

/-- Give back trailing whitespace from the greedy `\s+` into the capture
group until the group reaches the `{min,}` length; at least one
whitespace character must remain consumed. -/
def wsGive (m : ℕ) : List Char → List Char → Option (List Char)
  | wsRev, g =>
    if m ≤ g.length then some g
    else
      match wsRev with
      | [] => none
      | [_] => none
      | w :: ws => wsGive m ws (w :: g)

/-- `\s+([class]{min,})` at the head of `cs`: greedy whitespace, then the
maximal class run, backing whitespace off into the group if it is too
short. -/
def faqAfterKw (minLen : ℕ) (cs : List Char) : Option (List Char) :=
  let ws := cs.takeWhile isPyWS
  let rest := cs.dropWhile isPyWS
  if ws.isEmpty then none
  else wsGive minLen ws.reverse (rest.takeWhile faqClassChar)

/-- Alternation over the keyword literals at one position, with
backtracking into later alternatives when the tail fails. -/
def faqTryAlts (minLen : ℕ) : List (List Char) → List Char → Option (List Char)
  | [], _ => none
  | kw :: kws, cs =>
    match ciPrefix kw cs with
    | some rest =>
      (match faqAfterKw minLen rest with
       | some g => some g
       | none => faqTryAlts minLen kws cs)
    | none => faqTryAlts minLen kws cs

/-- `re.search` scan for `(?:kw1|kw2|...)\s+([class]{min,})`. -/
def faqSearchKw (minLen : ℕ) (alts : List (List Char)) : List Char → Option (List Char)
  | [] => faqTryAlts minLen alts []
  | c :: t =>
    match faqTryAlts minLen alts (c :: t) with
    | some g => some g
    | none => faqSearchKw minLen alts t

/-- `m.group(1).strip() if m else ""`, for the university/company capture
applied to the raw query. -/
def extract_group_arg (alts : List String) (minLen : ℕ) (query : String) : String :=
  match faqSearchKw minLen (alts.map String.data) query.data with
  | some g => pyStrip ⟨g⟩
  | none => ""

inductive FaqIntent | topCompanies | majorsApproval | schoolSponsors | companyCounts
deriving DecidableEq, Repr

/-- `EnhancedImmigrationAgent._extract_faq_intent`: keyword tests over the
normalized query, with the capture groups extracted from the raw query
(`re.I`). -/
def extract_faq_intent (query : String) : Option (FaqIntent × String) :=
  let q := normalize_text query
  if (pyIn "which companies" q || pyIn "top" q || pyIn "filed the most" q
        || pyIn "most petitions" q)
      && (pyIn "2025" q || pyIn "fy 2025" q)
      && h1bWord q then
    some (FaqIntent.topCompanies, "")
  else if (pyIn "which majors" q || pyIn "majors" q)
      && (h1bWord q || pyIn "approve" q || pyIn "approved" q
            || pyIn "approval" q || pyIn "certif" q) then
    some (FaqIntent.majorsApproval, "")
  else if (pyIn "sponsor" q || pyIn "sponsored" q)
      && (pyIn "school" q || pyIn "university" q) then
    some (FaqIntent.schoolSponsors, extract_group_arg ["from", "at"] 3 query)
  else if (pyIn "how many" q || pyIn "how much" q || pyIn "number" q)
      && (pyIn "company" q || pyIn "employer" q || pyIn "from" q)
      && (h1bWord q || pyIn "petition" q || pyIn "lca" q) then
    some (FaqIntent.companyCounts, extract_group_arg ["company", "employer", "from"] 2 query)
  else none

/-! ## The environment: remote record store and external collaborators

Every call that can raise in the source (Supabase queries, web-source
scraping, the LangChain agent invocation, the `working_agent` import) is
an `Except String` value supplied here; `try/except` in the source becomes
a `match` on the `Except`. -/

structure Source where
  title : String
  url : String
  snippet : String
deriving DecidableEq, Repr

structure Env where
  lcaSelect : ℕ → Except String (List LcaRow)
  lcaByCity : String → ℕ → Except String (List LcaRow)
  lcaByWage : ℚ → ℕ → Except String (List LcaRow)
  lcaByCompany : String → ℕ → Except String (List LcaRow)
  lcaByTitle : String → ℕ → Except String (List LcaRow)
  permSelect : ℕ → Except String (List PermRow)
  permByCity : String → ℕ → Except String (List PermRow)
  permByWage : ℚ → ℕ → Except String (List PermRow)
  permByCompany : String → ℕ → Except String (List PermRow)
  permByTitle : String → ℕ → Except String (List PermRow)
  topCompaniesSources : Except String (List Source)
  majorsSources : Except String (List Source)
  schoolSources : String → Except String (List Source)
  companySources : String → Except String (List Source)
  agentOutput : Except String String
  workingAgentFallback : Except String String
  workingAgentHard : Except String String

/-! ### DataService methods over the environment -/

def ds_get_sample_joined_data (env : Env) (limit : ℕ) : Except String (List PyDict) :=
  (env.lcaSelect limit).map get_sample_joined_data_rows

def ds_get_filings_by_city (env : Env) (city : String) (limit : ℕ) : Except String (List PyDict) :=
  (env.lcaByCity city limit).map (get_filings_by_city_rows city)

/-- `get_high_wage_jobs` over-fetches `limit * 2` from the remote before
the local filter/sort/truncate. -/
def ds_get_high_wage_jobs (env : Env) (min_wage : ℚ) (limit : ℕ) : Except String (List PyDict) :=
  (env.lcaByWage min_wage (limit * 2)).map (get_high_wage_jobs_rows min_wage limit)

def ds_get_jobs_by_company (env : Env) (company : String) (limit : ℕ) : Except String (List PyDict) :=
  (env.lcaByCompany company limit).map get_jobs_by_company_rows

def ds_get_jobs_by_title (env : Env) (title : String) (limit : ℕ) : Except String (List PyDict) :=
  (env.lcaByTitle title limit).map get_jobs_by_title_rows

def ds_get_sample_perm_data (env : Env) (limit : ℕ) : Except String (List PyDict) :=
  (env.permSelect limit).map get_sample_perm_data_rows

def ds_get_perm_by_city (env : Env) (city : String) (limit : ℕ) : Except String (List PyDict) :=
  (env.permByCity city limit).map get_perm_by_city_rows

def ds_get_perm_high_wage_jobs (env : Env) (min_wage : ℚ) (limit : ℕ) : Except String (List PyDict) :=
  (env.permByWage min_wage (limit * 2)).map (get_perm_high_wage_jobs_rows min_wage limit)

def ds_get_perm_by_company (env : Env) (company : String) (limit : ℕ) : Except String (List PyDict) :=
  (env.permByCompany company limit).map get_perm_by_company_rows

def ds_get_perm_by_title (env : Env) (title : String) (limit : ℕ) : Except String (List PyDict) :=
  (env.permByTitle title limit).map get_perm_by_title_rows

/-- `DataService.get_all_high_wage_jobs` over the environment. -/
def ds_get_all_high_wage_jobs (env : Env) (min_wage : ℚ) (limit : ℕ) : Except String (List PyDict) := do
  let lca_jobs ← ds_get_high_wage_jobs env min_wage (limit / 2)
  let perm_jobs ← ds_get_perm_high_wage_jobs env min_wage (limit / 2)
  pure ((sortByWageDesc (lca_jobs ++ perm_jobs)).take limit)

/-! ### The FAQ answer templates (`_answer_faq_with_sources`) -/

def renderSourceFull (s : Source) : String :=
  "• " ++ s.title ++ ": " ++ s.url ++ (if s.snippet.isEmpty then "" else " — " ++ s.snippet)

def renderSourceShort (s : Source) : String :=
  "• " ++ s.title ++ ": " ++ s.url

def answer_faq_with_sources (env : Env) : FaqIntent → String → Except String String
  | FaqIntent.topCompanies, _ => do
    let srcs ← env.topCompaniesSources
    pure (rstripStr (String.intercalate "\n"
      (["📊 Top H-1B Petitioners (FY 2025)", sepLine60, "",
        "• This summary lists leading petitioners for FY 2025.", "", "Sources:"]
        ++ srcs.map renderSourceFull)))
  | FaqIntent.majorsApproval, _ => do
    let srcs ← env.majorsSources
    pure (rstripStr (String.intercalate "\n"
      (["🎓 Majors With Higher H-1B Certification Odds", sepLine60, "",
        "• Studies suggest CS/STEM and PhD holders have higher certification rates.",
        "• Lower odds observed for associate degrees and some non-STEM fields.",
        "", "Sources:"]
        ++ srcs.map renderSourceShort)))
  | FaqIntent.schoolSponsors, arg => do
    let univ := pyStrip arg
    let srcs ← env.schoolSources (if univ.isEmpty then "your university" else univ)
    pure (rstripStr (String.intercalate "\n"
      (["🏫 School H-1B Sponsorships", sepLine60, "",
        (if univ.isEmpty then
          "• Please share your university (e.g., \x27University of Michigan\x27)."
         else "• School: " ++ univ),
        "• Use these sources to view recent LCA filings and sponsors.",
        "", "Sources:"]
        ++ srcs.map renderSourceShort)))
  | FaqIntent.companyCounts, arg => do
    let comp := pyStrip arg
    let srcs ← env.companySources (if comp.isEmpty then "your company" else comp)
    pure (rstripStr (String.intercalate "\n"
      (["🏢 Employer H-1B Petition Counts", sepLine60, "",
        (if comp.isEmpty then "• Please provide the company legal name."
         else "• Company: " ++ comp),
        "• Use these to view recent annual counts (MyVisaJobs) and multi-year totals (H1BGrader).",
        "", "Sources:"]
        ++ srcs.map renderSourceShort)))

/-! ### LangChain tools used by the direct fallback (`tools.py`) -/

def tool_get_sample_lca_data (env : Env) (limit : ℕ) : String :=
  match ds_get_sample_joined_data env limit with
  | Except.ok results => format_job_results results "sample LCA jobs"
  | Except.error e => "Error fetching sample data: " ++ e

def tool_find_jobs_by_city (env : Env) (city : String) : String :=
  match ds_get_filings_by_city env city 20 with
  | Except.ok results => format_job_results results ("jobs in " ++ city)
  | Except.error e => "Error finding jobs in " ++ city ++ ": " ++ e

def tool_find_high_wage_jobs (env : Env) (min_wage : ℚ) : String :=
  match ds_get_high_wage_jobs env min_wage 20 with
  | Except.ok results => format_job_results results ("high-wage jobs ($" ++ fmtComma0 min_wage ++ "+)")
  | Except.error e => "Error finding high wage jobs: " ++ e

/-! ### The fallback delegate (`agent.run_agent_query`) -/

/-- `run_agent_query._parse_wage`: `\$?\s*(\d[\d,]*)(k)?` at the head of
the list (no lookarounds, so a greedy left-to-right match is exact). -/
def agentParseWageAt (cs : List Char) : Option ℚ :=
  let cs1 := match cs with
    | '$' :: r => r
    | _ => cs
  let cs2 := cs1.dropWhile isPyWS
  match cs2 with
  | c :: rest =>
    if c.isDigit then
      let run := rest.takeWhile (fun x => x.isDigit || x == ',')
      let after := rest.dropWhile (fun x => x.isDigit || x == ',')
      let hasK := match after with
        | 'k' :: _ => true
        | _ => false
      let val := digitsVal (c :: run)
      some ((if hasK || val < 1000 then val * 1000 else val : ℕ) : ℚ)
    else none
  | [] => none

def agentParseWageSearch : List Char → Option ℚ
  | [] => none
  | c :: rest =>
    match agentParseWageAt (c :: rest) with
    | some v => some v
    | none => agentParseWageSearch rest

/-- `_parse_wage(q)` (the function lowercases its input itself). -/
def agent_parse_wage (q : String) : Option ℚ :=
  agentParseWageSearch (lowerStr q).data

/-- The direct-tool final fallback tier of `run_agent_query`. -/
def direct_tool_fallback (env : Env) (query : String) : String :=
  let query_lower := lowerStr query
  match agent_parse_wage query with
  | some wage => tool_find_high_wage_jobs env wage
  | none =>
    if pyIn "sample" query_lower then tool_get_sample_lca_data env 5
    else if pyIn "san francisco" query_lower then tool_find_jobs_by_city env "San Francisco"
    else if pyIn "chicago" query_lower then tool_find_jobs_by_city env "Chicago"
    else if pyIn "high" query_lower || pyIn "120" query_lower then tool_find_high_wage_jobs env 120000
    else tool_get_sample_lca_data env 10

/-- `agent.run_agent_query`: LangChain output validation, then the
`working_agent` fallback, then the direct-tool fallback.  Every tier is
guarded, so the function returns a plain string. -/
def run_agent_query (env : Env) (query : String) : String :=
  let validated : Except String String :=
    match env.agentOutput with
    | Except.error e => Except.error e
    | Except.ok result =>
      if !(pyStrip result).isEmpty && !(pyIn "error" (lowerStr result)) then
        (if (pyIn "thought:" (lowerStr result) && pyIn "action:" (lowerStr result))
            || "Thought:".data.isPrefixOf (pyStrip result).data then
          Except.error "Agent returned planning trace instead of final answer"
         else Except.ok result)
      else Except.error "LangChain agent returned invalid response"
  match validated with
  | Except.ok r => r
  | Except.error _ =>
    match env.workingAgentFallback with
    | Except.ok r => r
    | Except.error _ => direct_tool_fallback env query

/-! ### The guidance data path (`ImmigrationAgent._get_relevant_data`) -/

/-- One numbered entry of `_get_relevant_data._format_section` (the visa
column shows the section label, not the record field). -/
def sectionEntryLines (idx : ℕ) (visa_label : String) (job : PyDict) : List String :=
  let company := nz (dictGetD job "company" PyVal.vNone)
  let role := nz (dictGetD job "job_title" PyVal.vNone)
  let city := nz (dictGetD job "city" PyVal.vNone)
  let state := nz (dictGetD job "state" PyVal.vNone)
  [ Nat.repr idx ++ ". 🏢 " ++ company,
    "",
    "   📋 Position: " ++ role,
    "   📍 Location: " ++ locStr city state,
    "   💰 Salary: " ++ salaryStr job,
    "   🛂 Visa: " ++ visa_label,
    "" ]

def sectionEntries (visa_label : String) : ℕ → List PyDict → List String
  | _, [] => []
  | i, j :: js => sectionEntryLines i visa_label j ++ sectionEntries visa_label (i + 1) js

/-- `_get_relevant_data._format_section` (presentation cap 10). -/
def format_section (title : String) (results : List PyDict) (visa_label : String) : String :=
  rstripStr (String.intercalate "\n"
    (["📊 " ++ title ++ " – " ++ Nat.repr results.length ++ " found", sepLine60, ""]
      ++ sectionEntries visa_label 1 (results.take 10)
      ++ (if 10 < results.length then
            ["... and " ++ Nat.repr (results.length - 10) ++ " more results"]
          else [])))

/-- `ImmigrationAgent._get_relevant_data`: branch on the detected
context, fetch LCA and PERM sections, with the whole body guarded by a
`try/except` that turns a store failure into an apology line. -/
def get_relevant_data (env : Env) (ctx : QueryContext) : String :=
  let attempt : Except String String :=
    match ctx.location_focus with
    | some city => do
      let lca ← ds_get_filings_by_city env city 30
      let perm ← ds_get_perm_by_city env city 30
      pure (format_section "Recent H-1B Filings (LCA Data)" lca "H-1B" ++ "\n\n"
        ++ format_section "Recent Green Card Filings (PERM Data)" perm "PERM")
    | none =>
      match ctx.company_specific with
      | some company => do
        let lca ← ds_get_jobs_by_company env company 30
        let perm ← ds_get_perm_by_company env company 30
        pure (format_section "Recent H-1B Filings (LCA Data)" lca "H-1B" ++ "\n\n"
          ++ format_section "Recent Green Card Filings (PERM Data)" perm "PERM")
      | none =>
        if ctx.salary_concern then do
          let lca ← ds_get_high_wage_jobs env 100000 30
          let perm ← ds_get_perm_high_wage_jobs env 100000 30
          pure (format_section "High-wage H-1B Filings (LCA Data)" lca "H-1B" ++ "\n\n"
            ++ format_section "High-wage Green Card Filings (PERM Data)" perm "PERM")
        else do
          let lca ← ds_get_sample_joined_data env 10
          let perm ← ds_get_sample_perm_data env 10
          pure (format_section "Recent H-1B Filings (LCA Data)" lca "H-1B" ++ "\n\n"
            ++ format_section "Recent Green Card Filings (PERM Data)" perm "PERM")
  match attempt with
  | Except.ok s => s
  | Except.error _ =>
    "Sorry, I encountered an error retrieving the data. Please try a more specific query."

/-- `ImmigrationAgent.provide_immigration_guidance`. -/
def provide_immigration_guidance (env : Env) (query : String) : String :=
  let context := analyze_immigration_query query
  let header := get_context_header context
  let data_response := get_relevant_data env context
  let advice := get_immigration_advice context
  String.intercalate "\n\n" ([header, data_response] ++ (if advice.isEmpty then [] else [advice]))

/-- `ImmigrationAgent.get_company_immigration_profile` over the
environment (the `try/except` renders a store failure as an apology). -/
def agent_get_company_profile (env : Env) (company_name : String) : String :=
  match (do
      let lca_jobs ← ds_get_jobs_by_company env company_name 50
      let perm_jobs ← ds_get_perm_by_company env company_name 50
      pure (get_company_immigration_profile company_name lca_jobs perm_jobs) :
      Except String String) with
  | Except.ok s => s
  | Except.error e =>
    "Sorry, I couldn\x27t analyze the immigration profile for " ++ company_name
      ++ ". Error: " ++ e

/-! ### The top-level entry point (`EnhancedImmigrationAgent.process_query`) -/

/-- The `results` computed in the wage fast-path: at-least uses the
LCA-dataset wage fetch with limit 40; at-most fetches a 200-record
unfiltered LCA sample and filters client-side for `0 < wage ≤ threshold`
in store order. -/
def wage_results (env : Env) (wage : ℚ) : WageOp → Except String (List PyDict)
  | WageOp.gte => ds_get_high_wage_jobs env wage 40
  | WageOp.lte =>
    (ds_get_sample_joined_data env 200).map (fun sample =>
      sample.filter (fun j => decide (0 < wageVal j) && decide (wageVal j ≤ wage)))

def wage_title (wage : ℚ) : WageOp → String
  | WageOp.gte => "jobs ($≥" ++ fmtComma0 wage ++ ")"
  | WageOp.lte => "jobs ($≤" ++ fmtComma0 wage ++ ")"

def wage_branch (env : Env) (wage : ℚ) (op : WageOp) : Except String String :=
  (wage_results env wage op).map (fun results => format_job_results results (wage_title wage op))

def visa_branch (env : Env) (visa : Visa) : Except String String :=
  (ds_get_sample_joined_data env 200).map (fun sample =>
    format_job_results (visaFilter visa sample) (visaName visa ++ " jobs"))

/-- The routing tail of `process_query` after the three fast-path
handlers: immigration guidance, else the delegate agent, else the
`working_agent` hard fallback, else the fixed apology string. -/
def process_fallback (env : Env) (query : String) : Except String String :=
  if is_immigration_query query then
    Except.ok (provide_immigration_guidance env query)
  else
    let result := run_agent_query env query
    if (pyStrip result).isEmpty then
      match env.workingAgentHard with
      | Except.ok r => Except.ok r
      | Except.error _ =>
        Except.ok "❌ Sorry, I couldn\x27t produce a result. Try a simpler query like \x27High-paying jobs $120k+\x27."
    else Except.ok result

/-- The wage fast-path tier of `process_query`: on a wage match, a
handler failure falls through to the routing tail. -/
def process_stage_wage (env : Env) (query : String) : Except String String :=
  match extract_wage query with
  | some (wage, op) =>
    (match wage_branch env wage op with
     | Except.ok s => Except.ok s
     | Except.error _ => process_fallback env query)
  | none => process_fallback env query

/-- The visa-filter tier of `process_query`. -/
def process_stage_visa (env : Env) (query : String) : Except String String :=
  match extract_visa query with
  | some v =>
    (match visa_branch env v with
     | Except.ok s => Except.ok s
     | Except.error _ => process_stage_wage env query)
  | none => process_stage_wage env query

/-- `EnhancedImmigrationAgent.process_query`: FAQ, visa filter and wage
fast-path tried in order, each guarded so a handler failure falls through
to the next tier. -/
def process_query (env : Env) (query : String) : Except String String :=
  match extract_faq_intent query with
  | some (intent, arg) =>
    (match answer_faq_with_sources env intent arg with
     | Except.ok s => Except.ok s
     | Except.error _ => process_stage_visa env query)
  | none => process_stage_visa env query

/-! ## Concrete rows and environments used by the closed theorems,
and the predicates the claims are stated with -/

/-- Non-increasing wage order, the order the spec calls "sorted by wage
strictly non-increasing". -/
def WageSortedDesc (l : List PyDict) : Prop :=
  l.Pairwise (fun a b => wageVal b ≤ wageVal a)

/-- A concrete LCA row: one filing with a $150,000 and a $90,000
worksite. -/
def lcaRowA : LcaRow :=
  ⟨"I-200-1", "Acme Corp", "Engineer", some "H-1B",
    [⟨"San Francisco", some "CA", some 150000⟩, ⟨"Austin", none, some 90000⟩]⟩

def envWitness : Env where
  lcaSelect := fun _ => Except.ok [lcaRowA]
  lcaByCity := fun _ _ => Except.ok [lcaRowA]
  lcaByWage := fun _ _ => Except.ok [lcaRowA]
  lcaByCompany := fun _ _ => Except.ok [lcaRowA]
  lcaByTitle := fun _ _ => Except.ok [lcaRowA]
  permSelect := fun _ => Except.ok []
  permByCity := fun _ _ => Except.ok []
  permByWage := fun _ _ => Except.ok []
  permByCompany := fun _ _ => Except.ok []
  permByTitle := fun _ _ => Except.ok []
  topCompaniesSources := Except.ok []
  majorsSources := Except.ok []
  schoolSources := fun _ => Except.ok []
  companySources := fun _ => Except.ok []
  agentOutput := Except.error "llm unavailable"
  workingAgentFallback := Except.error "working_agent module not found"
  workingAgentHard := Except.error "working_agent module not found"

/-- A PERM store row with a qualifying wage, used to show the dispatcher
ignores the PERM dataset. -/
def permRowB : PermRow :=
  [ ("case_number", PyVal.vStr "P-1"),
    ("employer_name", PyVal.vStr "Initech"),
    ("job_title", PyVal.vStr "Engineer"),
    ("worksite_city", PyVal.vStr "Austin"),
    ("worksite_state", PyVal.vStr "TX"),
    ("wage_offer_to", PyVal.vNum 150000) ]

/-- Environment where the LCA wage query returns nothing but the PERM
wage query returns a qualifying record. -/
def envC1 : Env :=
  { envWitness with
    lcaByWage := fun _ _ => Except.ok []
    permByWage := fun _ _ => Except.ok [permRowB] }

instance {α β : Type} [DecidableEq α] [DecidableEq β] : DecidableEq (Except α β) := fun a b =>
  match a, b with
  | Except.ok x, Except.ok y =>
    if h : x = y then isTrue (by rw [h]) else isFalse (by simp [h])
  | Except.ok _, Except.error _ => isFalse (by simp)
  | Except.error _, Except.ok _ => isFalse (by simp)
  | Except.error x, Except.error y =>
    if h : x = y then isTrue (by rw [h]) else isFalse (by simp [h])

/-- Environment in which every external collaborator fails except the
`working_agent` delegate tier, which returns an empty answer: the cascade
then ends at the fixed apology string. -/
def envApology : Env where
  lcaSelect := fun _ => Except.error "store down"
  lcaByCity := fun _ _ => Except.error "store down"
  lcaByWage := fun _ _ => Except.error "store down"
  lcaByCompany := fun _ _ => Except.error "store down"
  lcaByTitle := fun _ _ => Except.error "store down"
  permSelect := fun _ => Except.error "store down"
  permByCity := fun _ _ => Except.error "store down"
  permByWage := fun _ _ => Except.error "store down"
  permByCompany := fun _ _ => Except.error "store down"
  permByTitle := fun _ _ => Except.error "store down"
  topCompaniesSources := Except.error "network down"
  majorsSources := Except.error "network down"
  schoolSources := fun _ => Except.error "network down"
  companySources := fun _ => Except.error "network down"
  agentOutput := Except.error "llm unavailable"
  workingAgentFallback := Except.ok ""
  workingAgentHard := Except.error "working_agent module not found"

/-- A record has the common normalized shape when the six fields of the
spec's `NormalizedRecord` are present. -/
def NormalizedShape (r : PyDict) : Prop :=
  hasKey r "company" = true ∧ hasKey r "job_title" = true ∧ hasKey r "city" = true
  ∧ hasKey r "state" = true ∧ hasKey r "wage" = true ∧ hasKey r "visa_class" = true

instance (r : PyDict) : Decidable (NormalizedShape r) := by
  unfold NormalizedShape
  infer_instance

def lcaRowC4 : LcaRow :=
  ⟨"I-200-77", "Globex LLC", "Analyst", some "H-1B", [⟨"Denver", some "CO", some 120000⟩]⟩

/-- A rendered line belonging to a numbered entry (each entry has exactly
one `Position` line). -/
def posLine (l : String) : Bool := "   📋 Position: ".data.isPrefixOf l.data

/-- A trailing truncation note. -/
def moreLinePred (l : String) : Bool := "... and ".data.isPrefixOf l.data

/-- Thirteen identical records, exercising the presentation cap. -/
def thirteenRecs : List PyDict :=
  List.replicate 13 (mkJoinedRec lcaRowC4 ⟨"Denver", some "CO", some 120000⟩)

/-- Environment whose per-company fetches return empty lists. -/
def envNoFilings : Env :=
  { envWitness with
    lcaByCompany := fun _ _ => Except.ok []
    permByCompany := fun _ _ => Except.ok [] }

/-! ## Lemmas: the stable descending sort -/

theorem mem_insertDesc {x a : PyDict} {l : List PyDict} :
    a ∈ insertDesc x l ↔ a = x ∨ a ∈ l := by
  induction l with
  | nil => simp [insertDesc]
  | cons y ys ih =>
    by_cases h : wageVal y ≤ wageVal x
    · simp [insertDesc, h]
    · simp only [insertDesc, if_neg h, List.mem_cons, ih]
      tauto

theorem mem_sortByWageDesc {a : PyDict} {l : List PyDict} :
    a ∈ sortByWageDesc l ↔ a ∈ l := by
  induction l with
  | nil => simp [sortByWageDesc]
  | cons x xs ih => simp [sortByWageDesc, mem_insertDesc, ih]

theorem pairwise_insertDesc {x : PyDict} {l : List PyDict}
    (h : WageSortedDesc l) : WageSortedDesc (insertDesc x l) := by
  induction l with
  | nil => simp [insertDesc, WageSortedDesc]
  | cons y ys ih =>
    rcases List.pairwise_cons.mp h with ⟨hy, hys⟩
    by_cases hcmp : wageVal y ≤ wageVal x
    · simp only [WageSortedDesc, insertDesc, if_pos hcmp]
      refine List.pairwise_cons.mpr ⟨?_, h⟩
      intro b hb
      rcases List.mem_cons.mp hb with rfl | hb
      · exact hcmp
      · exact le_trans (hy b hb) hcmp
    · simp only [WageSortedDesc, insertDesc, if_neg hcmp]
      refine List.pairwise_cons.mpr ⟨?_, ih hys⟩
      intro b hb
      rcases mem_insertDesc.mp hb with rfl | hb
      · exact le_of_not_le hcmp
      · exact hy b hb

theorem sorted_sortByWageDesc (l : List PyDict) :
    WageSortedDesc (sortByWageDesc l) := by
  induction l with
  | nil => exact List.Pairwise.nil
  | cons x xs ih => exact pairwise_insertDesc ih

theorem wageSortedDesc_take (l : List PyDict) (n : ℕ)
    (h : WageSortedDesc l) : WageSortedDesc (l.take n) :=
  h.sublist (List.take_sublist n l)

/-- **C6.** For every threshold and limit, the per-dataset wage-at-least
fetches (`get_high_wage_jobs`, `get_perm_high_wage_jobs`) and the
combined-dataset helper (`get_all_high_wage_jobs`) return a list sorted by
wage non-increasing and truncated to at most `limit` records, whatever
rows the remote store handed back. -/
theorem wage_at_least_sorted_and_capped (W : ℚ) (L : ℕ)
    (lcaRows : List LcaRow) (permRows : List PermRow) :
    (WageSortedDesc (get_high_wage_jobs_rows W L lcaRows)
      ∧ (get_high_wage_jobs_rows W L lcaRows).length ≤ L)
    ∧ (WageSortedDesc (get_perm_high_wage_jobs_rows W L permRows)
      ∧ (get_perm_high_wage_jobs_rows W L permRows).length ≤ L)
    ∧ (WageSortedDesc (get_all_high_wage_jobs_rows W L lcaRows permRows)
      ∧ (get_all_high_wage_jobs_rows W L lcaRows permRows).length ≤ L) := by
  refine ⟨⟨?_, ?_⟩, ⟨?_, ?_⟩, ⟨?_, ?_⟩⟩
  · exact wageSortedDesc_take _ L (sorted_sortByWageDesc _)
  · simp only [get_high_wage_jobs_rows]
    exact List.length_take_le _ _
  · exact wageSortedDesc_take _ L (sorted_sortByWageDesc _)
  · simp only [get_perm_high_wage_jobs_rows]
    exact List.length_take_le _ _
  · exact wageSortedDesc_take _ L (sorted_sortByWageDesc _)
  · simp only [get_all_high_wage_jobs_rows]
    exact List.length_take_le _ _

/-! ## Lemmas: local wage re-validation (C5) -/

theorem wageVal_mkJoinedRec (rec : LcaRow) (w : LcaWorksite) :
    wageVal (mkJoinedRec rec w) = w.prevailing_wage.getD 0 := rfl

theorem wageVal_standardize_perm (r : PermRow) :
    wageVal (standardize_perm_record r) = permWage r := rfl

theorem mem_get_high_wage_jobs_rows {W : ℚ} {L : ℕ} {rows : List LcaRow} {r : PyDict}
    (hr : r ∈ get_high_wage_jobs_rows W L rows) : W ≤ wageVal r := by
  unfold get_high_wage_jobs_rows at hr
  have hr1 := mem_sortByWageDesc.mp (List.take_subset _ _ hr)
  rcases List.mem_flatten.mp hr1 with ⟨chunk, hchunk, hrc⟩
  rcases List.mem_map.mp hchunk with ⟨rec, _, rfl⟩
  rcases List.mem_filterMap.mp hrc with ⟨w, _, hw⟩
  by_cases hcond : W ≤ w.prevailing_wage.getD 0
  · rw [if_pos hcond] at hw
    cases hw
    simpa [wageVal_mkJoinedRec] using hcond
  · rw [if_neg hcond] at hw
    cases hw

theorem mem_get_perm_high_wage_jobs_rows {W : ℚ} {L : ℕ} {rows : List PermRow} {r : PyDict}
    (hr : r ∈ get_perm_high_wage_jobs_rows W L rows) : W ≤ wageVal r := by
  unfold get_perm_high_wage_jobs_rows at hr
  have hr1 := mem_sortByWageDesc.mp (List.take_subset _ _ hr)
  rcases List.mem_filterMap.mp hr1 with ⟨p, _, hp⟩
  by_cases hcond : W ≤ permWage p
  · rw [if_pos hcond] at hp
    cases hp
    simpa [wageVal_standardize_perm] using hcond
  · rw [if_neg hcond] at hp
    cases hp

/-- **C5.** Every record in a `WageThreshold(at-least, W)` dispatch result
has wage ≥ W, and every record in a `WageThreshold(at-most, W)` dispatch
result has 0 < wage ≤ W, for arbitrary remote responses: the wage branch
re-validates each record locally. -/
theorem wage_threshold_revalidated (env : Env) (W : ℚ) :
    (∀ rs, wage_results env W WageOp.gte = Except.ok rs → ∀ r ∈ rs, W ≤ wageVal r)
    ∧ (∀ rs, wage_results env W WageOp.lte = Except.ok rs →
        ∀ r ∈ rs, 0 < wageVal r ∧ wageVal r ≤ W) := by
  constructor
  · intro rs hok r hr
    cases hfetch : env.lcaByWage W (40 * 2) with
    | error e =>
      simp [wage_results, ds_get_high_wage_jobs, hfetch, Except.map] at hok
    | ok rows =>
      simp [wage_results, ds_get_high_wage_jobs, hfetch, Except.map] at hok
      subst hok
      exact mem_get_high_wage_jobs_rows hr
  · intro rs hok r hr
    cases hfetch : env.lcaSelect 200 with
    | error e =>
      simp [wage_results, ds_get_sample_joined_data, hfetch, Except.map] at hok
    | ok rows =>
      simp [wage_results, ds_get_sample_joined_data, hfetch, Except.map] at hok
      subst hok
      have := List.of_mem_filter hr
      simpa using this

/-- Witness for C5 at the concrete environment `envWitness`, threshold
$120,000. -/
theorem wage_threshold_revalidated_witness :
    (∀ r ∈ (get_high_wage_jobs_rows 120000 40 [lcaRowA]), (120000 : ℚ) ≤ wageVal r)
    ∧ (∀ r ∈ ((get_sample_joined_data_rows [lcaRowA]).filter
          (fun j => decide (0 < wageVal j) && decide (wageVal j ≤ (120000 : ℚ)))),
        0 < wageVal r ∧ wageVal r ≤ (120000 : ℚ)) := by
  constructor
  · exact (wage_threshold_revalidated envWitness 120000).1 _ rfl
  · exact (wage_threshold_revalidated envWitness 120000).2 _ rfl

/-! ## C1: which datasets the wage dispatcher consults -/

/-- **C1, counterexample.**  The claim says a `WageThreshold(at-least)`
dispatch fetches from both datasets through the combined-dataset wage
fetch.  The query `above 100k` classifies as at-least 100000, yet at this
store the dispatcher's fetched record list is empty (LCA-only) while the
combined fetch (`get_all_high_wage_jobs`) returns the qualifying PERM
record: the dispatch is not the combined-dataset fetch. -/
theorem wage_dispatch_combined_counterexample :
    extract_wage "above 100k" = some (100000, WageOp.gte)
    ∧ wage_results envC1 100000 WageOp.gte = Except.ok []
    ∧ ds_get_all_high_wage_jobs envC1 100000 40
      = Except.ok [standardize_perm_record permRowB]
    ∧ wage_results envC1 100000 WageOp.gte ≠ ds_get_all_high_wage_jobs envC1 100000 40 := by
  refine ⟨by decide, by decide, by decide, by decide⟩

/-- **C1, amended.**  A wage-threshold dispatch consults the LCA dataset
only: at-least uses the LCA wage-at-least fetch with limit 40; at-most
fetches a 200-record unfiltered LCA sample and filters it client-side for
`0 < wage ≤ threshold` preserving store order (a sublist of the sample);
and the wage branch reads none of the PERM-dataset accessors. -/
theorem wage_dispatch_lca_only (env : Env) (q : String) (W : ℚ) (op : WageOp)
    (hfaq : extract_faq_intent q = none) (hvisa : extract_visa q = none)
    (hwage : extract_wage q = some (W, op)) :
    (∀ rows, env.lcaByWage W (40 * 2) = Except.ok rows → op = WageOp.gte →
      process_query env q =
        Except.ok (format_job_results (get_high_wage_jobs_rows W 40 rows)
          (wage_title W WageOp.gte)))
    ∧ (∀ rows, env.lcaSelect 200 = Except.ok rows → op = WageOp.lte →
      process_query env q =
        Except.ok (format_job_results
          ((get_sample_joined_data_rows rows).filter
            (fun j => decide (0 < wageVal j) && decide (wageVal j ≤ W)))
          (wage_title W WageOp.lte))
      ∧ ((get_sample_joined_data_rows rows).filter
            (fun j => decide (0 < wageVal j) && decide (wageVal j ≤ W))).Sublist
          (get_sample_joined_data_rows rows))
    ∧ (∀ pSel pCity pWage pComp pTitle,
        wage_branch { env with permSelect := pSel, permByCity := pCity,
                               permByWage := pWage, permByCompany := pComp,
                               permByTitle := pTitle } W op
          = wage_branch env W op) := by
  refine ⟨?_, ?_, ?_⟩
  · intro rows hrows hop
    subst hop
    simp [process_query, process_stage_visa, process_stage_wage, hfaq, hvisa, hwage,
      wage_branch, wage_results, ds_get_high_wage_jobs, hrows, Except.map]
  · intro rows hrows hop
    subst hop
    refine ⟨?_, List.filter_sublist _⟩
    simp [process_query, process_stage_visa, process_stage_wage, hfaq, hvisa, hwage,
      wage_branch, wage_results, ds_get_sample_joined_data, hrows, Except.map]
  · intro pSel pCity pWage pComp pTitle
    cases op <;>
      simp [wage_branch, wage_results, ds_get_high_wage_jobs, ds_get_sample_joined_data]

/-- Witness for the amended C1 at a concrete environment and query. -/
theorem wage_dispatch_lca_only_witness :
    process_query envWitness "above 100k" =
      Except.ok (format_job_results (get_high_wage_jobs_rows 100000 40 [lcaRowA])
        (wage_title 100000 WageOp.gte)) :=
  (wage_dispatch_lca_only envWitness "above 100k" 100000 WageOp.gte
    (by decide) (by decide) (by decide)).1 [lcaRowA] rfl rfl

/-! ## C7: the entry point never raises -/

theorem process_fallback_ok (env : Env) (q : String) :
    ∃ s, process_fallback env q = Except.ok s := by
  unfold process_fallback
  by_cases him : is_immigration_query q
  · exact ⟨_, if_pos him⟩
  · rw [if_neg him]
    by_cases hempty : (pyStrip (run_agent_query env q)).isEmpty
    · rw [if_pos hempty]
      cases env.workingAgentHard with
      | ok r => exact ⟨r, rfl⟩
      | error e => exact ⟨_, rfl⟩
    · rw [if_neg hempty]
      exact ⟨_, rfl⟩

theorem process_stage_wage_ok (env : Env) (q : String) :
    ∃ s, process_stage_wage env q = Except.ok s := by
  obtain ⟨s4, hs4⟩ := process_fallback_ok env q
  unfold process_stage_wage
  cases extract_wage q with
  | none => exact ⟨s4, hs4⟩
  | some p =>
    obtain ⟨w, op⟩ := p
    cases hw : wage_branch env w op with
    | ok s => exact ⟨s, by simp [hw]⟩
    | error e => exact ⟨s4, by simp [hw, hs4]⟩

theorem process_stage_visa_ok (env : Env) (q : String) :
    ∃ s, process_stage_visa env q = Except.ok s := by
  obtain ⟨s3, hs3⟩ := process_stage_wage_ok env q
  unfold process_stage_visa
  cases extract_visa q with
  | none => exact ⟨s3, hs3⟩
  | some v =>
    cases hv : visa_branch env v with
    | ok s => exact ⟨s, by simp [hv]⟩
    | error e => exact ⟨s3, by simp [hv, hs3]⟩

/-- **C7.** `process_query` always returns a string — a failure in any
handler is caught and control passes to the next fallback tier — and with
every tier failing on a query no extractor matches, the result is the
fixed apology string suggesting an example query. -/
theorem process_query_never_raises :
    (∀ (env : Env) (q : String), ∃ s, process_query env q = Except.ok s)
    ∧ process_query envApology "hello world"
      = Except.ok "❌ Sorry, I couldn\x27t produce a result. Try a simpler query like \x27High-paying jobs $120k+\x27." := by
  constructor
  · intro env q
    obtain ⟨s2, hs2⟩ := process_stage_visa_ok env q
    unfold process_query
    cases extract_faq_intent q with
    | none => exact ⟨s2, hs2⟩
    | some p =>
      obtain ⟨intent, arg⟩ := p
      cases hf : answer_faq_with_sources env intent arg with
      | ok s => exact ⟨s, by simp [hf]⟩
      | error e => exact ⟨s2, by simp [hf, hs2]⟩
  · decide

/-! ## C2: the bare-amount wage pattern is dead code -/

/-- **C2.** Contrary to the claim (and to `_extract_wage`'s own
docstring), a bare numeric/currency token with no directional word yields
no wage intent at all: the generic-amount branch sits after the
`return None` of `_extract_visa` and is unreachable.  With a directional
word the same tokens parse as claimed. -/
theorem extract_wage_bare_amount_unmatched :
    extract_wage "120k" = none
    ∧ extract_wage "$120,000" = none
    ∧ extract_wage "120000" = none
    ∧ extract_wage "under 120k" = some (120000, WageOp.lte)
    ∧ extract_wage "above $120,000" = some (120000, WageOp.gte) := by
  refine ⟨by decide, by decide, by decide, by decide, by decide⟩

/-! ## C3: the extractors receive the raw, unnormalized query -/

/-- **C3.** Contrary to the claim, the visa-class and wage-threshold
extractors are case-sensitive: `process_query` hands them the raw query
(despite the `q is normalized already` comment in `_extract_visa`), and
their patterns are lowercase with no `re.I` flag, so a query and its
case-normalized form classify differently. -/
theorem extractors_not_case_insensitive :
    extract_visa "Show me H-1B jobs" = none
    ∧ extract_visa (normalize_text "Show me H-1B jobs") = some Visa.h1b
    ∧ extract_visa "Show me H-1B jobs"
        ≠ extract_visa (normalize_text "Show me H-1B jobs")
    ∧ extract_wage "Under $120k" = none
    ∧ extract_wage (normalize_text "Under $120k") = some (120000, WageOp.lte)
    ∧ extract_wage "Under $120k" ≠ extract_wage (normalize_text "Under $120k") := by
  refine ⟨by decide, by decide, by decide, by decide, by decide, by decide⟩

/-! ## C4: the shape of the adapter records -/

/-- **C4, counterexample.**  The LCA filter-by-employer accessor does not
return the normalized shape: its records carry `employer_name` /
`worksite_city` / `prevailing_wage` keys and lack `company`, `city`,
`state`, `wage` and `visa_class`. -/
theorem adapter_shape_counterexample :
    ¬ (∀ r ∈ get_jobs_by_company_rows [lcaRowC4], NormalizedShape r) := by
  decide

theorem normalizedShape_mkJoinedRec (rec : LcaRow) (w : LcaWorksite) :
    NormalizedShape (mkJoinedRec rec w) :=
  ⟨rfl, rfl, rfl, rfl, rfl, rfl⟩

theorem normalizedShape_mkNoWorksiteRec (rec : LcaRow) :
    NormalizedShape (mkNoWorksiteRec rec) :=
  ⟨rfl, rfl, rfl, rfl, rfl, rfl⟩

theorem normalizedShape_standardize_perm (r : PermRow) :
    NormalizedShape (standardize_perm_record r) :=
  ⟨rfl, rfl, rfl, rfl, rfl, rfl⟩

theorem mem_get_sample_joined_shape {rows : List LcaRow} {r : PyDict}
    (hr : r ∈ get_sample_joined_data_rows rows) : NormalizedShape r := by
  unfold get_sample_joined_data_rows at hr
  rcases List.mem_flatten.mp hr with ⟨chunk, hchunk, hrc⟩
  rcases List.mem_map.mp hchunk with ⟨rec, _, rfl⟩
  by_cases hemp : rec.lca_worksites.isEmpty
  · rw [if_pos hemp] at hrc
    rcases List.mem_singleton.mp hrc with rfl
    exact normalizedShape_mkNoWorksiteRec rec
  · rw [if_neg hemp] at hrc
    rcases List.mem_map.mp hrc with ⟨w, _, rfl⟩
    exact normalizedShape_mkJoinedRec rec w

theorem mem_get_filings_by_city_shape {city : String} {rows : List LcaRow} {r : PyDict}
    (hr : r ∈ get_filings_by_city_rows city rows) : NormalizedShape r := by
  unfold get_filings_by_city_rows at hr
  rcases List.mem_flatten.mp hr with ⟨chunk, hchunk, hrc⟩
  rcases List.mem_map.mp hchunk with ⟨rec, _, rfl⟩
  rcases List.mem_map.mp hrc with ⟨w, _, rfl⟩
  exact normalizedShape_mkJoinedRec rec w

theorem mem_get_high_wage_shape {W : ℚ} {L : ℕ} {rows : List LcaRow} {r : PyDict}
    (hr : r ∈ get_high_wage_jobs_rows W L rows) : NormalizedShape r := by
  unfold get_high_wage_jobs_rows at hr
  have hr1 := mem_sortByWageDesc.mp (List.take_subset _ _ hr)
  rcases List.mem_flatten.mp hr1 with ⟨chunk, hchunk, hrc⟩
  rcases List.mem_map.mp hchunk with ⟨rec, _, rfl⟩
  rcases List.mem_filterMap.mp hrc with ⟨w, _, hw⟩
  by_cases hcond : W ≤ w.prevailing_wage.getD 0
  · rw [if_pos hcond] at hw
    cases hw
    exact normalizedShape_mkJoinedRec rec w
  · rw [if_neg hcond] at hw
    cases hw

theorem mem_get_perm_high_wage_shape {W : ℚ} {L : ℕ} {rows : List PermRow} {r : PyDict}
    (hr : r ∈ get_perm_high_wage_jobs_rows W L rows) : NormalizedShape r := by
  unfold get_perm_high_wage_jobs_rows at hr
  have hr1 := mem_sortByWageDesc.mp (List.take_subset _ _ hr)
  rcases List.mem_filterMap.mp hr1 with ⟨p, _, hp⟩
  by_cases hcond : W ≤ permWage p
  · rw [if_pos hcond] at hp
    cases hp
    exact normalizedShape_standardize_perm p
  · rw [if_neg hcond] at hp
    cases hp

/-- **C4, amended.**  All record-store accessors return the common
normalized shape except the LCA filter-by-employer and filter-by-title
accessors, whose records carry the raw keys `case_number`,
`employer_name`, `job_title`, `worksite_city`, `prevailing_wage` and lack
the normalized `company`/`city`/`state`/`wage`/`visa_class` fields. -/
theorem adapter_record_shapes (rows : List LcaRow) (permRows : List PermRow)
    (city : String) (W : ℚ) (L : ℕ) :
    (∀ r ∈ get_sample_joined_data_rows rows, NormalizedShape r)
    ∧ (∀ r ∈ get_filings_by_city_rows city rows, NormalizedShape r)
    ∧ (∀ r ∈ get_high_wage_jobs_rows W L rows, NormalizedShape r)
    ∧ (∀ r ∈ get_sample_perm_data_rows permRows, NormalizedShape r)
    ∧ (∀ r ∈ get_perm_by_city_rows permRows, NormalizedShape r)
    ∧ (∀ r ∈ get_perm_high_wage_jobs_rows W L permRows, NormalizedShape r)
    ∧ (∀ r ∈ get_perm_by_company_rows permRows, NormalizedShape r)
    ∧ (∀ r ∈ get_perm_by_title_rows permRows, NormalizedShape r)
    ∧ (∀ r ∈ get_all_high_wage_jobs_rows W L rows permRows, NormalizedShape r)
    ∧ (∀ r ∈ get_jobs_by_company_rows rows,
        hasKey r "case_number" = true ∧ hasKey r "employer_name" = true
        ∧ hasKey r "job_title" = true ∧ hasKey r "worksite_city" = true
        ∧ hasKey r "prevailing_wage" = true ∧ hasKey r "company" = false
        ∧ hasKey r "city" = false ∧ hasKey r "state" = false
        ∧ hasKey r "wage" = false ∧ hasKey r "visa_class" = false)
    ∧ (∀ r ∈ get_jobs_by_title_rows rows,
        hasKey r "company" = false ∧ hasKey r "wage" = false
        ∧ hasKey r "visa_class" = false) := by
  refine ⟨fun r hr => mem_get_sample_joined_shape hr,
    fun r hr => mem_get_filings_by_city_shape hr,
    fun r hr => mem_get_high_wage_shape hr,
    ?_, ?_, fun r hr => mem_get_perm_high_wage_shape hr, ?_, ?_, ?_, ?_, ?_⟩
  · intro r hr
    rcases List.mem_map.mp hr with ⟨p, _, rfl⟩
    exact normalizedShape_standardize_perm p
  · intro r hr
    rcases List.mem_map.mp hr with ⟨p, _, rfl⟩
    exact normalizedShape_standardize_perm p
  · intro r hr
    rcases List.mem_map.mp hr with ⟨p, _, rfl⟩
    exact normalizedShape_standardize_perm p
  · intro r hr
    rcases List.mem_map.mp hr with ⟨p, _, rfl⟩
    exact normalizedShape_standardize_perm p
  · intro r hr
    unfold get_all_high_wage_jobs_rows at hr
    have hr1 := mem_sortByWageDesc.mp (List.take_subset _ _ hr)
    rcases List.mem_append.mp hr1 with h | h
    · exact mem_get_high_wage_shape h
    · exact mem_get_perm_high_wage_shape h
  · intro r hr
    unfold get_jobs_by_company_rows at hr
    rcases List.mem_flatten.mp hr with ⟨chunk, hchunk, hrc⟩
    rcases List.mem_map.mp hchunk with ⟨rec, _, rfl⟩
    rcases List.mem_map.mp hrc with ⟨w, _, rfl⟩
    exact ⟨rfl, rfl, rfl, rfl, rfl, rfl, rfl, rfl, rfl, rfl⟩
  · intro r hr
    unfold get_jobs_by_title_rows at hr
    rcases List.mem_flatten.mp hr with ⟨chunk, hchunk, hrc⟩
    rcases List.mem_map.mp hchunk with ⟨rec, _, rfl⟩
    rcases List.mem_map.mp hrc with ⟨w, _, rfl⟩
    exact ⟨rfl, rfl, rfl⟩

/-- Witness for the amended C4 at a concrete row set. -/
theorem adapter_record_shapes_witness :
    (∀ r ∈ get_sample_joined_data_rows [lcaRowC4], NormalizedShape r)
    ∧ (∀ r ∈ get_jobs_by_company_rows [lcaRowC4],
        hasKey r "employer_name" = true ∧ hasKey r "company" = false) := by
  constructor
  · exact (adapter_record_shapes [lcaRowC4] [] "Denver" 0 5).1
  · intro r hr
    have h := (adapter_record_shapes [lcaRowC4] [] "Denver" 0 5).2.2.2.2.2.2.2.2.2.1 r hr
    exact ⟨h.2.1, h.2.2.2.2.2.1⟩

/-! ## C8: the presentation cap of the formatter -/

theorem isPrefixOf_cons₂ (a b : Char) (as bs : List Char) :
    (a :: as).isPrefixOf (b :: bs) = (a == b && as.isPrefixOf bs) := rfl

theorem self_isPrefixOf_append (p t : List Char) : p.isPrefixOf (p ++ t) = true := by
  induction p with
  | nil =>
    rw [List.nil_append]
    cases t <;> rfl
  | cons c cs ih => simp [isPrefixOf_cons₂, ih]

theorem not_prefixOf_cons_of_head_ne {p c : Char} {ps : List Char}
    (h : (p == c) = false) (t : List Char) :
    (p :: ps).isPrefixOf (c :: t) = false := by
  rw [isPrefixOf_cons₂, h]
  rfl

/-- Every run of `Nat.toDigitsCore` prepends a nonempty block of digit
characters to its accumulator (when it has fuel). -/
theorem toDigitsCore_spec : ∀ (fuel n : ℕ) (ds : List Char),
    ∃ new, Nat.toDigitsCore 10 fuel n ds = new ++ ds
      ∧ (∀ c ∈ new, c.isDigit = true) ∧ (fuel ≠ 0 → new ≠ []) := by
  intro fuel
  induction fuel with
  | zero =>
    intro n ds
    exact ⟨[], by simp [Nat.toDigitsCore], by simp, by simp⟩
  | succ fuel ih =>
    intro n ds
    have hd : (Nat.digitChar (n % 10)).isDigit = true := by
      have h10 : n % 10 < 10 := Nat.mod_lt _ (by norm_num)
      revert h10
      generalize n % 10 = m
      intro h10
      interval_cases m <;> decide
    by_cases hq : n / 10 = 0
    · refine ⟨[Nat.digitChar (n % 10)], ?_, ?_, ?_⟩
      · simp [Nat.toDigitsCore, hq]
      · intro c hc
        rcases List.mem_singleton.mp hc with rfl
        exact hd
      · intro _
        simp
    · rcases ih (n / 10) (Nat.digitChar (n % 10) :: ds) with ⟨new', hnew', hdig', _⟩
      refine ⟨new' ++ [Nat.digitChar (n % 10)], ?_, ?_, ?_⟩
      · rw [show Nat.toDigitsCore 10 (fuel + 1) n ds
              = Nat.toDigitsCore 10 fuel (n / 10) (Nat.digitChar (n % 10) :: ds) from by
            simp [Nat.toDigitsCore, hq]]
        rw [hnew']
        simp
      · intro c hc
        rcases List.mem_append.mp hc with h | h
        · exact hdig' c h
        · rcases List.mem_singleton.mp h with rfl
          exact hd
      · intro _
        simp

/-- The decimal rendering of a natural number starts with a digit. -/
theorem natRepr_head (n : ℕ) :
    ∃ c cs, (Nat.repr n).data = c :: cs ∧ c.isDigit = true := by
  rcases toDigitsCore_spec (n + 1) n [] with ⟨new, hnew, hdig, hne⟩
  have hne' : new ≠ [] := hne (Nat.succ_ne_zero n)
  cases new with
  | nil => exact absurd rfl hne'
  | cons c cs =>
    refine ⟨c, cs, ?_, hdig c (List.mem_cons_self c cs)⟩
    show (Nat.toDigits 10 n).asString.data = c :: cs
    rw [show Nat.toDigits 10 n = Nat.toDigitsCore 10 (n + 1) n [] from rfl, hnew]
    simp [List.asString]

theorem posLine_numbered (i : ℕ) (t : String) : posLine (Nat.repr i ++ t) = false := by
  obtain ⟨c, cs, hdata, hdig⟩ := natRepr_head i
  unfold posLine
  rw [String.data_append, hdata, List.cons_append]
  refine not_prefixOf_cons_of_head_ne ?_ _
  refine beq_eq_false_iff_ne.mpr ?_
  intro hsp
  rw [← hsp] at hdig
  exact absurd hdig (by decide)

theorem moreLinePred_numbered (i : ℕ) (t : String) : moreLinePred (Nat.repr i ++ t) = false := by
  obtain ⟨c, cs, hdata, hdig⟩ := natRepr_head i
  unfold moreLinePred
  rw [String.data_append, hdata, List.cons_append]
  refine not_prefixOf_cons_of_head_ne ?_ _
  refine beq_eq_false_iff_ne.mpr ?_
  intro hsp
  rw [← hsp] at hdig
  exact absurd hdig (by decide)

theorem posLine_position (t : String) : posLine ("   📋 Position: " ++ t) = true := by
  unfold posLine
  rw [String.data_append]
  exact self_isPrefixOf_append _ _

theorem posLine_location (t : String) : posLine ("   📍 Location: " ++ t) = false := by
  unfold posLine
  rw [String.data_append]
  rfl

theorem posLine_salary (t : String) : posLine ("   💰 Salary: " ++ t) = false := by
  unfold posLine
  rw [String.data_append]
  rfl

theorem posLine_visa (t : String) : posLine ("   🛂 Visa: " ++ t) = false := by
  unfold posLine
  rw [String.data_append]
  rfl

theorem posLine_empty : posLine "" = false := rfl

theorem posLine_header (t : String) : posLine ("📊 **" ++ t) = false := by
  unfold posLine
  rw [String.data_append]
  rfl

theorem posLine_sep : posLine sepLine60 = false := rfl

theorem posLine_dots (t : String) : posLine ("... and " ++ t) = false := by
  unfold posLine
  rw [String.data_append]
  rfl

theorem moreLinePred_dots (t : String) : moreLinePred ("... and " ++ t) = true := by
  unfold moreLinePred
  rw [String.data_append]
  exact self_isPrefixOf_append _ _

theorem moreLinePred_position (t : String) : moreLinePred ("   📋 Position: " ++ t) = false := by
  unfold moreLinePred
  rw [String.data_append]
  rfl

theorem moreLinePred_location (t : String) : moreLinePred ("   📍 Location: " ++ t) = false := by
  unfold moreLinePred
  rw [String.data_append]
  rfl

theorem moreLinePred_salary (t : String) : moreLinePred ("   💰 Salary: " ++ t) = false := by
  unfold moreLinePred
  rw [String.data_append]
  rfl

theorem moreLinePred_visa (t : String) : moreLinePred ("   🛂 Visa: " ++ t) = false := by
  unfold moreLinePred
  rw [String.data_append]
  rfl

theorem moreLinePred_empty : moreLinePred "" = false := rfl

theorem moreLinePred_header (t : String) : moreLinePred ("📊 **" ++ t) = false := by
  unfold moreLinePred
  rw [String.data_append]
  rfl

theorem moreLinePred_sep : moreLinePred sepLine60 = false := rfl

theorem countP_entryLines_pos (i : ℕ) (j : PyDict) :
    (entryLines i j).countP posLine = 1 := by
  unfold entryLines
  simp [List.countP_cons, posLine_numbered, posLine_position, posLine_location,
    posLine_salary, posLine_visa, posLine_empty]

theorem countP_entryLines_more (i : ℕ) (j : PyDict) :
    (entryLines i j).countP moreLinePred = 0 := by
  unfold entryLines
  simp [List.countP_cons, moreLinePred_numbered, moreLinePred_position,
    moreLinePred_location, moreLinePred_salary, moreLinePred_visa, moreLinePred_empty]

theorem countP_fjrEntries_pos : ∀ (i : ℕ) (l : List PyDict),
    (fjrEntries i l).countP posLine = l.length := by
  intro i l
  induction l generalizing i with
  | nil => rfl
  | cons j js ih =>
    show ((entryLines i j) ++ fjrEntries (i + 1) js).countP posLine = js.length + 1
    rw [List.countP_append, countP_entryLines_pos, ih]
    omega

theorem countP_fjrEntries_more : ∀ (i : ℕ) (l : List PyDict),
    (fjrEntries i l).countP moreLinePred = 0 := by
  intro i l
  induction l generalizing i with
  | nil => rfl
  | cons j js ih =>
    show ((entryLines i j) ++ fjrEntries (i + 1) js).countP moreLinePred = 0
    rw [List.countP_append, countP_entryLines_more, ih]

/-- **C8.** For every non-empty record list of length N, the formatter
renders exactly `min N 10` numbered entries (one `Position` line each) and
exactly one trailing `... and N-10 more results` line if and only if
N > 10, that line being the last of the report. -/
theorem formatter_caps (results : List PyDict) (qt : String) (_h : results ≠ []) :
    (format_job_results_lines results qt).countP posLine = min results.length 10
    ∧ (format_job_results_lines results qt).countP moreLinePred
        = (if 10 < results.length then 1 else 0)
    ∧ (10 < results.length →
        (format_job_results_lines results qt).getLast?
          = some ("... and " ++ (Nat.repr (results.length - 10) ++ " more results"))) := by
  refine ⟨?_, ?_, ?_⟩
  · unfold format_job_results_lines
    rw [List.countP_append, List.countP_append, countP_fjrEntries_pos]
    rw [List.countP_cons, List.countP_cons, List.countP_cons, List.countP_nil]
    rw [posLine_header, posLine_sep, posLine_empty]
    by_cases hN : 10 < results.length
    · rw [if_pos hN, List.countP_cons, List.countP_nil, posLine_dots]
      simp [List.length_take, Nat.min_comm]
    · rw [if_neg hN, List.countP_nil]
      simp [List.length_take, Nat.min_comm]
  · unfold format_job_results_lines
    rw [List.countP_append, List.countP_append, countP_fjrEntries_more]
    rw [List.countP_cons, List.countP_cons, List.countP_cons, List.countP_nil]
    rw [moreLinePred_header, moreLinePred_sep, moreLinePred_empty]
    by_cases hN : 10 < results.length
    · rw [if_pos hN, if_pos hN, List.countP_cons, List.countP_nil, moreLinePred_dots]
      simp
    · rw [if_neg hN, if_neg hN, List.countP_nil]
      simp
  · intro hN
    unfold format_job_results_lines
    rw [if_pos hN]
    exact List.getLast?_concat _

/-- Witness for C8: thirteen records render ten `Position` lines and one
trailing `... and 3 more results` line. -/
theorem formatter_caps_witness :
    (format_job_results_lines thirteenRecs "jobs").countP posLine = 10
    ∧ (format_job_results_lines thirteenRecs "jobs").countP moreLinePred = 1
    ∧ (format_job_results_lines thirteenRecs "jobs").getLast?
        = some ("... and " ++ (Nat.repr 3 ++ " more results")) := by
  have h := formatter_caps thirteenRecs "jobs" (by decide)
  obtain ⟨h1, h2, h3⟩ := h
  refine ⟨?_, ?_, ?_⟩
  · rw [h1]
    decide
  · rw [h2]
    decide
  · rw [h3 (by decide)]
    decide

/-! ## C9: the zero-record company profile -/

/-- **C9.** When both per-company fetches return zero records, the profile
report is built from two empty lists; it shows the `Not recommended`
recommendation category and `Not specified` for both average wages. -/
theorem company_profile_zero_records (env : Env) (name : String)
    (h1 : ds_get_jobs_by_company env name 50 = Except.ok [])
    (h2 : ds_get_perm_by_company env name 50 = Except.ok []) :
    agent_get_company_profile env name = get_company_immigration_profile name [] []
    ∧ get_company_recommendation 0 0
        = "❌ Not recommended – No visible immigration sponsorship"
    ∧ pyIn "Not recommended" (get_company_recommendation 0 0) = true
    ∧ get_company_recommendation ([] : List PyDict).length ([] : List PyDict).length
        ∈ company_profile_lines name [] []
    ∧ "• Average H-1B wage: Not specified" ∈ company_profile_lines name [] []
    ∧ "• Average PERM wage: Not specified" ∈ company_profile_lines name [] [] := by
  refine ⟨?_, by decide, by decide, ?_, ?_, ?_⟩
  · simp [agent_get_company_profile, h1, h2, Except.bind, bind, pure, Except.pure]
  · simp only [company_profile_lines]
    iterate 18 apply List.mem_cons_of_mem
    exact List.mem_cons_self _ _
  · simp only [company_profile_lines]
    iterate 5 apply List.mem_cons_of_mem
    exact List.mem_cons_self _ _
  · simp only [company_profile_lines]
    iterate 10 apply List.mem_cons_of_mem
    exact List.mem_cons_self _ _

/-- Witness for C9 at a concrete environment whose per-company fetches
return empty lists. -/
theorem company_profile_zero_records_witness :
    agent_get_company_profile envNoFilings "globex"
      = get_company_immigration_profile "globex" [] []
    ∧ "• Average H-1B wage: Not specified" ∈ company_profile_lines "globex" [] [] := by
  have h := company_profile_zero_records envNoFilings "globex" rfl rfl
  exact ⟨h.1, h.2.2.2.2.1⟩

/-! ## C10: PERM accessors substitute the literal string `N/A` -/

/-- **C10.** A PERM store row lacking `case_number`, `employer_name`,
`job_title`, `worksite_city` or `worksite_state` is standardized with the
literal string `N/A` in the corresponding output field — a present string,
not an absent value — and the formatter's defaulting function maps `N/A`
to itself, not to `Not specified`. -/
theorem perm_missing_fields_na (r : PermRow)
    (h1 : dictGet? r "case_number" = none) (h2 : dictGet? r "employer_name" = none)
    (h3 : dictGet? r "job_title" = none) (h4 : dictGet? r "worksite_city" = none)
    (h5 : dictGet? r "worksite_state" = none) :
    dictGet? (standardize_perm_record r) "case_number" = some (PyVal.vStr "N/A")
    ∧ dictGet? (standardize_perm_record r) "company" = some (PyVal.vStr "N/A")
    ∧ dictGet? (standardize_perm_record r) "job_title" = some (PyVal.vStr "N/A")
    ∧ dictGet? (standardize_perm_record r) "city" = some (PyVal.vStr "N/A")
    ∧ dictGet? (standardize_perm_record r) "state" = some (PyVal.vStr "N/A")
    ∧ nz (PyVal.vStr "N/A") = "N/A"
    ∧ nz (PyVal.vStr "N/A") ≠ "Not specified" := by
  refine ⟨?_, ?_, ?_, ?_, ?_, by decide, by decide⟩
  all_goals
    simp [standardize_perm_record, dictGet?, dictGetD, h1, h2, h3, h4, h5]

/-- Witness for C10 on a concrete store row with no fields at all. -/
theorem perm_missing_fields_na_witness :
    dictGet? (standardize_perm_record ([] : PermRow)) "company" = some (PyVal.vStr "N/A")
    ∧ nz (PyVal.vStr "N/A") = "N/A" :=
  ⟨(perm_missing_fields_na [] rfl rfl rfl rfl rfl).2.1,
    (perm_missing_fields_na [] rfl rfl rfl rfl rfl).2.2.2.2.2.1⟩

end SAM
